import Mathlib

/-!
# umanager API gateway: status translation and request decoding

A shallow embedding of `internal/apigw/v1` (handler.go, users.go, links.go) and of
the error paths of `internal/user/usergrpc` and `internal/link/linkgrpc`.

Conventions of the embedding:
* Go `int` values are integers, `codes.Code` (a `uint32`) and byte counts are natural
  numbers; no arithmetic that could overflow is done on either;
* Go strings that are inspected byte-wise (header values, request bodies) are lists
  of bytes (`List Nat`); texts that are only produced are Lean strings;
* a Go `error` result is an `Option`, `none` standing for `nil`.
-/

namespace UManager

/-! ## Library constants -/

namespace codes
/-! The canonical gRPC codes, `google.golang.org/grpc/codes`. -/
def OK : Nat := 0
def Canceled : Nat := 1
def Unknown : Nat := 2
def InvalidArgument : Nat := 3
def DeadlineExceeded : Nat := 4
def NotFound : Nat := 5
def AlreadyExists : Nat := 6
def PermissionDenied : Nat := 7
def ResourceExhausted : Nat := 8
def FailedPrecondition : Nat := 9
def Aborted : Nat := 10
def OutOfRange : Nat := 11
def Unimplemented : Nat := 12
def Internal : Nat := 13
def Unavailable : Nat := 14
def DataLoss : Nat := 15
def Unauthenticated : Nat := 16
end codes

namespace http
/-! The status constants of `net/http` used by the gateway. -/
def StatusOK : Int := 200
def StatusCreated : Int := 201
def StatusNoContent : Int := 204
def StatusBadRequest : Int := 400
def StatusUnauthorized : Int := 401
def StatusForbidden : Int := 403
def StatusNotFound : Int := 404
def StatusRequestTimeout : Int := 408
def StatusConflict : Int := 409
def StatusRequestEntityTooLarge : Int := 413
def StatusUnsupportedMediaType : Int := 415
def StatusTooManyRequests : Int := 429
def StatusInternalServerError : Int := 500
def StatusNotImplemented : Int := 501
def StatusServiceUnavailable : Int := 503
def StatusGatewayTimeout : Int := 504
end http

namespace apiv1

/-- Modelled from the spec: the generated package `pkg/api/apiv1` is not part of the
sources; `ErrorCode` is its closed set of application error codes
(bad-request, conflict, not-found, internal-server-error). -/
inductive ErrorCode where
  | BadRequest
  | Conflict
  | InternalServerError
  | NotFound
  deriving DecidableEq, Repr

/-- Modelled from the spec: the wire text of each `apiv1.ErrorCode` constant, as listed
for the `code` member of the error envelope. -/
def ErrorCode.wire : ErrorCode → String
  | .BadRequest => "bad_request"
  | .Conflict => "conflict"
  | .InternalServerError => "internal_server_error"
  | .NotFound => "not_found"

/-- The error envelope `apiv1.Error`: a code and an optional message (`*string`). -/
structure Error where
  Code : ErrorCode
  Message : Option String
  deriving DecidableEq, Repr

end apiv1

/-! ## Status translator (handler.go) -/

/-- Go `ConvertGRPCCodeToHTTP`, handler.go lines 49-88. -/
def ConvertGRPCCodeToHTTP (grpcCode : Nat) : Int :=
  if grpcCode = codes.OK then http.StatusOK
  else if grpcCode = codes.Canceled then http.StatusRequestTimeout
  else if grpcCode = codes.Unknown then http.StatusInternalServerError
  else if grpcCode = codes.InvalidArgument then http.StatusBadRequest
  else if grpcCode = codes.DeadlineExceeded then http.StatusGatewayTimeout
  else if grpcCode = codes.NotFound then http.StatusNotFound
  else if grpcCode = codes.AlreadyExists then http.StatusConflict
  else if grpcCode = codes.PermissionDenied then http.StatusForbidden
  else if grpcCode = codes.ResourceExhausted then http.StatusTooManyRequests
  else if grpcCode = codes.FailedPrecondition then http.StatusBadRequest
  else if grpcCode = codes.Aborted then http.StatusConflict
  else if grpcCode = codes.OutOfRange then http.StatusBadRequest
  else if grpcCode = codes.Unimplemented then http.StatusNotImplemented
  else if grpcCode = codes.Internal then http.StatusInternalServerError
  else if grpcCode = codes.Unavailable then http.StatusServiceUnavailable
  else if grpcCode = codes.DataLoss then http.StatusInternalServerError
  else if grpcCode = codes.Unauthenticated then http.StatusUnauthorized
  else http.StatusInternalServerError

/-- Go `ConvertGRPCToErrorCode`, handler.go lines 90-103. -/
def ConvertGRPCToErrorCode (grpcCode : Nat) : apiv1.ErrorCode :=
  if grpcCode = codes.Internal ∨ grpcCode = codes.Unknown ∨ grpcCode = codes.DataLoss then
    apiv1.ErrorCode.InternalServerError
  else if grpcCode = codes.NotFound then
    apiv1.ErrorCode.NotFound
  else if grpcCode = codes.InvalidArgument ∨ grpcCode = codes.FailedPrecondition
      ∨ grpcCode = codes.OutOfRange then
    apiv1.ErrorCode.BadRequest
  else if grpcCode = codes.Aborted ∨ grpcCode = codes.AlreadyExists then
    apiv1.ErrorCode.Conflict
  else
    apiv1.ErrorCode.InternalServerError

/-- Go `ConvertHTTPToErrorCode`, handler.go lines 105-119. -/
def ConvertHTTPToErrorCode (code : Int) : apiv1.ErrorCode :=
  if code = http.StatusBadRequest then apiv1.ErrorCode.BadRequest
  else if code = http.StatusInternalServerError then apiv1.ErrorCode.InternalServerError
  else if code = http.StatusRequestEntityTooLarge then apiv1.ErrorCode.BadRequest
  else if code = http.StatusUnsupportedMediaType then apiv1.ErrorCode.BadRequest
  else if code = http.StatusConflict then apiv1.ErrorCode.Conflict
  else apiv1.ErrorCode.InternalServerError

/-! ## The JSON scanner of `encoding/json` (scanner.go)

`json.Decoder.Decode` finds the end of the next value with this byte-level state
machine before it unmarshals anything, so where a syntax error is reported, and
whether one is reported before the size cap is hit, is decided here. -/

namespace json

/-- The error `*json.SyntaxError`: `msg` is its `Error()` text, `Offset` the number of
bytes read when the error was found. -/
structure SyntaxError where
  msg : String
  Offset : Nat
  deriving DecidableEq, Repr

/-- The scan codes returned by the step functions. -/
inductive ScanCode where
  | scanContinue
  | scanBeginLiteral
  | scanBeginObject
  | scanObjectKey
  | scanObjectValue
  | scanEndObject
  | scanBeginArray
  | scanArrayValue
  | scanEndArray
  | scanSkipSpace
  | scanEnd
  | scanError
  deriving DecidableEq, Repr

/-- The entries of the scanner's `parseState` stack. -/
inductive ParseState where
  | parseObjectKey
  | parseObjectValue
  | parseArrayValue
  deriving DecidableEq, Repr

/-- The step function currently installed in `scanner.step`, by name. -/
inductive Step where
  | stateBeginValueOrEmpty
  | stateBeginValue
  | stateBeginStringOrEmpty
  | stateBeginString
  | stateEndValue
  | stateEndTop
  | stateInString
  | stateInStringEsc
  | stateInStringEscU
  | stateInStringEscU1
  | stateInStringEscU12
  | stateInStringEscU123
  | stateNeg
  | state1
  | state0
  | stateDot
  | stateDot0
  | stateE
  | stateESign
  | stateE0
  | stateT
  | stateTr
  | stateTru
  | stateF
  | stateFa
  | stateFal
  | stateFals
  | stateN
  | stateNu
  | stateNul
  | stateError
  deriving DecidableEq, Repr

/-- The `scanner` struct. `parseState` keeps the top of the stack at the head of the
list (the Go slice keeps it at the end). -/
structure scanner where
  step : Step
  endTop : Bool
  parseState : List ParseState
  err : Option SyntaxError
  bytes : Nat
  deriving DecidableEq, Repr

def maxNestingDepth : Nat := 10000

/-- Go `isSpace`: space, tab, carriage return, line feed. -/
def isSpace (c : Nat) : Bool :=
  decide (c ≤ 32) && (c == 32 || c == 9 || c == 13 || c == 10)

/-- ASCII digit test, written `'0' <= c && c <= '9'` in the Go source. -/
def isDigit (c : Nat) : Bool := decide (48 ≤ c) && decide (c ≤ 57)

/-- Hexadecimal digit test of `stateInStringEscU` and its successors. -/
def isHex (c : Nat) : Bool :=
  isDigit c || (decide (97 ≤ c) && decide (c ≤ 102)) || (decide (65 ≤ c) && decide (c ≤ 70))

/-- One lower-case hexadecimal digit. -/
def hexDigit (n : Nat) : Char :=
  if n < 10 then Char.ofNat (48 + n) else Char.ofNat (87 + n)

/-- The printable bytes according to `strconv.IsPrint` on the runes below 256. -/
def isPrintByte (c : Nat) : Bool :=
  (decide (32 ≤ c) && decide (c < 127)) || (decide (161 ≤ c) && decide (c ≤ 255) && c != 173)

/-- The backslash, as a one-byte text. -/
def backslash : String := String.singleton (Char.ofNat 92)

/-- The text `strconv.Quote(string(c))` without its enclosing double quotes, for a
byte `c` other than the double quote. -/
def quoteByteBody (c : Nat) : String :=
  if c = 92 then backslash ++ backslash
  else if isPrintByte c then String.singleton (Char.ofNat c)
  else if c = 7 then backslash ++ "a"
  else if c = 8 then backslash ++ "b"
  else if c = 12 then backslash ++ "f"
  else if c = 10 then backslash ++ "n"
  else if c = 13 then backslash ++ "r"
  else if c = 9 then backslash ++ "t"
  else if c = 11 then backslash ++ "v"
  else if c < 32 ∨ c = 127 then
    backslash ++ "x" ++ String.mk [hexDigit (c / 16), hexDigit (c % 16)]
  else backslash ++ "u00" ++ String.mk [hexDigit (c / 16), hexDigit (c % 16)]

/-- Go `quoteChar`: the byte in single quotes, as it appears in syntax error texts. -/
def quoteChar (c : Nat) : String :=
  let q := String.singleton (Char.ofNat 39)
  if c = 39 then q ++ backslash ++ q ++ q
  else if c = 34 then q ++ String.singleton (Char.ofNat 34) ++ q
  else q ++ quoteByteBody c ++ q

/-- Go `scanner.error`: record a syntax error at the current byte count. -/
def scanner.error (s : scanner) (c : Nat) (context : String) : scanner × ScanCode :=
  ({ s with step := .stateError,
            err := some ⟨"invalid character " ++ quoteChar c ++ " " ++ context, s.bytes⟩ },
    .scanError)

/-- Go `scanner.reset`. -/
def scanner.reset (s : scanner) : scanner :=
  { s with step := .stateBeginValue, parseState := [], err := none, endTop := false }

/-- Go `scanner.pushParseState`. -/
def scanner.pushParseState (s : scanner) (c : Nat) (newParseState : ParseState)
    (successState : ScanCode) : scanner × ScanCode :=
  let s1 := { s with parseState := newParseState :: s.parseState }
  if s1.parseState.length ≤ maxNestingDepth then (s1, successState) else s1.error c "exceeded max depth"

/-- Go `scanner.popParseState`. -/
def scanner.popParseState (s : scanner) : scanner :=
  let rest := s.parseState.tail
  if rest.length = 0 then { s with parseState := rest, step := .stateEndTop, endTop := true }
  else { s with parseState := rest, step := .stateEndValue }

/-- Go `stateEndTop`: a non-space byte after the top-level value is recorded as an error
but the code returned is `scanEnd` all the same. -/
def stateEndTop (s : scanner) (c : Nat) : scanner × ScanCode :=
  if !isSpace c then ((s.error c "after top-level value").1, .scanEnd) else (s, .scanEnd)

/-- Go `stateEndValue`. Byte codes: 58 colon, 44 comma, 125 closing brace, 93 closing
bracket. -/
def stateEndValue (s : scanner) (c : Nat) : scanner × ScanCode :=
  match s.parseState with
  | [] => stateEndTop { s with step := .stateEndTop, endTop := true } c
  | ps :: rest =>
    if isSpace c then ({ s with step := .stateEndValue }, .scanSkipSpace)
    else
      match ps with
      | .parseObjectKey =>
        if c = 58 then
          ({ s with parseState := .parseObjectValue :: rest, step := .stateBeginValue },
            .scanObjectKey)
        else s.error c "after object key"
      | .parseObjectValue =>
        if c = 44 then
          ({ s with parseState := .parseObjectKey :: rest, step := .stateBeginString },
            .scanObjectValue)
        else if c = 125 then (s.popParseState, .scanEndObject)
        else s.error c "after object key:value pair"
      | .parseArrayValue =>
        if c = 44 then ({ s with step := .stateBeginValue }, .scanArrayValue)
        else if c = 93 then (s.popParseState, .scanEndArray)
        else s.error c "after array element"

/-- Go `stateBeginString`. Byte 34 is the double quote. -/
def stateBeginString (s : scanner) (c : Nat) : scanner × ScanCode :=
  if isSpace c then (s, .scanSkipSpace)
  else if c = 34 then ({ s with step := .stateInString }, .scanBeginLiteral)
  else s.error c "looking for beginning of object key string"

/-- Go `stateBeginStringOrEmpty`. -/
def stateBeginStringOrEmpty (s : scanner) (c : Nat) : scanner × ScanCode :=
  if isSpace c then (s, .scanSkipSpace)
  else if c = 125 then
    stateEndValue { s with parseState := s.parseState.set 0 .parseObjectValue } c
  else stateBeginString s c

/-- Go `stateBeginValue`. Byte codes: 123 opening brace, 91 opening bracket, 34 double
quote, 45 minus, 48 zero, 116 t, 102 f, 110 n. -/
def stateBeginValue (s : scanner) (c : Nat) : scanner × ScanCode :=
  if isSpace c then (s, .scanSkipSpace)
  else if c = 123 then
    scanner.pushParseState { s with step := .stateBeginStringOrEmpty } c .parseObjectKey
      .scanBeginObject
  else if c = 91 then
    scanner.pushParseState { s with step := .stateBeginValueOrEmpty } c .parseArrayValue
      .scanBeginArray
  else if c = 34 then ({ s with step := .stateInString }, .scanBeginLiteral)
  else if c = 45 then ({ s with step := .stateNeg }, .scanBeginLiteral)
  else if c = 48 then ({ s with step := .state0 }, .scanBeginLiteral)
  else if c = 116 then ({ s with step := .stateT }, .scanBeginLiteral)
  else if c = 102 then ({ s with step := .stateF }, .scanBeginLiteral)
  else if c = 110 then ({ s with step := .stateN }, .scanBeginLiteral)
  else if 49 ≤ c ∧ c ≤ 57 then ({ s with step := .state1 }, .scanBeginLiteral)
  else s.error c "looking for beginning of value"

/-- Go `stateBeginValueOrEmpty`. -/
def stateBeginValueOrEmpty (s : scanner) (c : Nat) : scanner × ScanCode :=
  if isSpace c then (s, .scanSkipSpace)
  else if c = 93 then stateEndValue s c
  else stateBeginValue s c

/-- Go `stateInString`. Byte 92 is the backslash. -/
def stateInString (s : scanner) (c : Nat) : scanner × ScanCode :=
  if c = 34 then ({ s with step := .stateEndValue }, .scanContinue)
  else if c = 92 then ({ s with step := .stateInStringEsc }, .scanContinue)
  else if c < 32 then s.error c "in string literal"
  else (s, .scanContinue)

/-- Go `stateInStringEsc`: one of b f n r t backslash slash quote, or u. -/
def stateInStringEsc (s : scanner) (c : Nat) : scanner × ScanCode :=
  if c = 98 ∨ c = 102 ∨ c = 110 ∨ c = 114 ∨ c = 116 ∨ c = 92 ∨ c = 47 ∨ c = 34 then
    ({ s with step := .stateInString }, .scanContinue)
  else if c = 117 then ({ s with step := .stateInStringEscU }, .scanContinue)
  else s.error c "in string escape code"

/-- The four hexadecimal-digit states `stateInStringEscU`, `...U1`, `...U12`, `...U123`
differ only in the state they install next. -/
def stateInStringEscHex (next : Step) (s : scanner) (c : Nat) : scanner × ScanCode :=
  if isHex c then ({ s with step := next }, .scanContinue)
  else s.error c ("in " ++ backslash ++ "u hexadecimal character escape")

/-- Go `stateE0`. -/
def stateE0 (s : scanner) (c : Nat) : scanner × ScanCode :=
  if isDigit c then (s, .scanContinue) else stateEndValue s c

/-- Go `stateESign`. -/
def stateESign (s : scanner) (c : Nat) : scanner × ScanCode :=
  if isDigit c then ({ s with step := .stateE0 }, .scanContinue)
  else s.error c "in exponent of numeric literal"

/-- Go `stateE`. Bytes 43 and 45 are plus and minus. -/
def stateE (s : scanner) (c : Nat) : scanner × ScanCode :=
  if c = 43 ∨ c = 45 then ({ s with step := .stateESign }, .scanContinue) else stateESign s c

/-- Go `stateDot0`. Bytes 101 and 69 are e and E. -/
def stateDot0 (s : scanner) (c : Nat) : scanner × ScanCode :=
  if isDigit c then (s, .scanContinue)
  else if c = 101 ∨ c = 69 then ({ s with step := .stateE }, .scanContinue)
  else stateEndValue s c

/-- Go `stateDot`. -/
def stateDot (s : scanner) (c : Nat) : scanner × ScanCode :=
  if isDigit c then ({ s with step := .stateDot0 }, .scanContinue)
  else s.error c "after decimal point in numeric literal"

/-- Go `state0`. Byte 46 is the decimal point. -/
def state0 (s : scanner) (c : Nat) : scanner × ScanCode :=
  if c = 46 then ({ s with step := .stateDot }, .scanContinue)
  else if c = 101 ∨ c = 69 then ({ s with step := .stateE }, .scanContinue)
  else stateEndValue s c

/-- Go `state1`. -/
def state1 (s : scanner) (c : Nat) : scanner × ScanCode :=
  if isDigit c then ({ s with step := .state1 }, .scanContinue) else state0 s c

/-- Go `stateNeg`. -/
def stateNeg (s : scanner) (c : Nat) : scanner × ScanCode :=
  if c = 48 then ({ s with step := .state0 }, .scanContinue)
  else if 49 ≤ c ∧ c ≤ 57 then ({ s with step := .state1 }, .scanContinue)
  else s.error c "in numeric literal"

/-- The states inside `true`, `false` and `null` (`stateT` ... `stateNul`): the expected
byte installs the next state, any other byte is an error naming the literal and the
expected byte. -/
def stateLiteral (literal : String) (expected : Nat) (next : Step) (s : scanner) (c : Nat) :
    scanner × ScanCode :=
  if c = expected then ({ s with step := next }, .scanContinue)
  else s.error c ("in literal " ++ literal ++ " (expecting " ++ quoteChar expected ++ ")")

/-- Call `s.step(s, c)`: dispatch on the installed step function. Byte codes: 114 r,
117 u, 101 e, 97 a, 108 l, 115 s. -/
def scanner.run (s : scanner) (c : Nat) : scanner × ScanCode :=
  match s.step with
  | .stateBeginValueOrEmpty => stateBeginValueOrEmpty s c
  | .stateBeginValue => stateBeginValue s c
  | .stateBeginStringOrEmpty => stateBeginStringOrEmpty s c
  | .stateBeginString => stateBeginString s c
  | .stateEndValue => stateEndValue s c
  | .stateEndTop => stateEndTop s c
  | .stateInString => stateInString s c
  | .stateInStringEsc => stateInStringEsc s c
  | .stateInStringEscU => stateInStringEscHex .stateInStringEscU1 s c
  | .stateInStringEscU1 => stateInStringEscHex .stateInStringEscU12 s c
  | .stateInStringEscU12 => stateInStringEscHex .stateInStringEscU123 s c
  | .stateInStringEscU123 => stateInStringEscHex .stateInString s c
  | .stateNeg => stateNeg s c
  | .state1 => state1 s c
  | .state0 => state0 s c
  | .stateDot => stateDot s c
  | .stateDot0 => stateDot0 s c
  | .stateE => stateE s c
  | .stateESign => stateESign s c
  | .stateE0 => stateE0 s c
  | .stateT => stateLiteral "true" 114 .stateTr s c
  | .stateTr => stateLiteral "true" 117 .stateTru s c
  | .stateTru => stateLiteral "true" 101 .stateEndValue s c
  | .stateF => stateLiteral "false" 97 .stateFa s c
  | .stateFa => stateLiteral "false" 108 .stateFal s c
  | .stateFal => stateLiteral "false" 115 .stateFals s c
  | .stateFals => stateLiteral "false" 101 .stateEndValue s c
  | .stateN => stateLiteral "null" 117 .stateNu s c
  | .stateNu => stateLiteral "null" 108 .stateNul s c
  | .stateNul => stateLiteral "null" 108 .stateEndValue s c
  | .stateError => (s, .scanError)

end json

/-! ## Error values that reach the decode classifier -/

/-- The error `*json.UnmarshalTypeError`; `GoType` is the text of its `Type` member. -/
structure json.UnmarshalTypeError where
  Value : String
  GoType : String
  Offset : Int
  Struct : String
  Field : String
  deriving DecidableEq, Repr

/-- Go `(*json.UnmarshalTypeError).Error`. -/
def json.UnmarshalTypeError.Error (e : json.UnmarshalTypeError) : String :=
  if e.Struct ≠ "" ∨ e.Field ≠ "" then
    "json: cannot unmarshal " ++ e.Value ++ " into Go struct field " ++ e.Struct ++ "."
      ++ e.Field ++ " of type " ++ e.GoType
  else "json: cannot unmarshal " ++ e.Value ++ " into Go value of type " ++ e.GoType

/-- The Go `error` values that `json.Decoder.Decode` can hand to `Unmarshal`.
`ErrUnexpectedEOF` and `EOF` are the sentinels of package `io` (compared by identity,
so they are constructors of their own and differ from an `errorString` of the same
text); `errorString` is a value made by `errors.New` or by `fmt.Errorf` without `%w`,
`wrapError` one made by `fmt.Errorf` with `%w`. -/
inductive GoError where
  | SyntaxError (e : json.SyntaxError)
  | UnmarshalTypeError (e : json.UnmarshalTypeError)
  | ErrUnexpectedEOF
  | EOF
  | MaxBytesError (Limit : Nat)
  | errorString (s : String)
  | wrapError (msg : String) (err : GoError)
  deriving DecidableEq, Repr

/-- The method `Error()` of each error value. -/
def GoError.Error : GoError → String
  | .SyntaxError e => e.msg
  | .UnmarshalTypeError e => e.Error
  | .ErrUnexpectedEOF => "unexpected EOF"
  | .EOF => "EOF"
  | .MaxBytesError _ => "http: request body too large"
  | .errorString s => s
  | .wrapError msg _ => msg

/-- Go `errors.As(err, &syntaxErr)` with `syntaxErr` a `*json.SyntaxError`: the first
syntax error on the `Unwrap` chain. -/
def GoError.asSyntaxError : GoError → Option json.SyntaxError
  | .SyntaxError e => some e
  | .wrapError _ err => err.asSyntaxError
  | _ => none

/-- Go `errors.As(err, &unmarshalError)` with `unmarshalError` a `*json.UnmarshalTypeError`. -/
def GoError.asUnmarshalTypeError : GoError → Option json.UnmarshalTypeError
  | .UnmarshalTypeError e => some e
  | .wrapError _ err => err.asUnmarshalTypeError
  | _ => none

/-- Go `errors.Is(err, io.ErrUnexpectedEOF)`. -/
def GoError.isErrUnexpectedEOF : GoError → Bool
  | .ErrUnexpectedEOF => true
  | .wrapError _ err => err.isErrUnexpectedEOF
  | _ => false

/-- Go `errors.Is(err, io.EOF)`. -/
def GoError.isEOF : GoError → Bool
  | .EOF => true
  | .wrapError _ err => err.isEOF
  | _ => false

/-- Go `strings.HasPrefix` on texts. -/
def hasLeading (s pre : String) : Bool := pre.toList.isPrefixOf s.toList

/-- Go `strings.TrimPrefix` on texts. -/
def trimLeading (s pre : String) : String :=
  if hasLeading s pre then String.mk (s.toList.drop pre.length) else s

/-- The bytes of an ASCII text. -/
def ascii (s : String) : List Nat := s.toList.map Char.toNat

/-! ## Reading one JSON value (`json.Decoder`, stream.go) through `http.MaxBytesReader` -/

def MaxBodyBytes : Nat := 64000

/-- What a reader wrapped by `http.MaxBytesReader(w, body, n)` delivers in total,
whatever the sizes of the single reads: the first `n` bytes of the body, and then the
error that ends the stream, `io.EOF` when the body has at most `n` bytes and
`*http.MaxBytesError` when it has more. -/
def MaxBytesReader (body : List Nat) (n : Nat) : List Nat × GoError :=
  (body.take n, if body.length ≤ n then GoError.EOF else GoError.MaxBytesError n)

/-- Where the scan loop of `readValue` stops on the bytes it is given. -/
inductive Scanned where
  | value (n : Nat) (s : json.scanner)
  | failed (e : json.SyntaxError)
  | exhausted (s : json.scanner)
  deriving DecidableEq, Repr

/-- The loop `for ; scanp < len(dec.buf); scanp++` of `Decoder.readValue`, run over all
bytes that the reader delivers; `scanp` counts the bytes passed. A value is complete
either when the scanner says `scanEnd` on the byte after it, or right after the brace or
bracket that closes a top-level object or array. On `scanError` the Go code returns
`0, dec.scan.err`; the scanner never says `scanError` without an error recorded, and
the last case of the inner match only keeps the function total. -/
def scanBuf (s : json.scanner) (scanp : Nat) : List Nat → Scanned
  | [] => .exhausted s
  | c :: rest =>
    let r := json.scanner.run { s with bytes := s.bytes + 1 } c
    match r.2 with
    | .scanEnd => .value scanp { r.1 with bytes := r.1.bytes - 1 }
    | .scanEndObject | .scanEndArray =>
      let e := json.stateEndValue r.1 32
      if e.2 = .scanEnd then .value (scanp + 1) e.1 else scanBuf e.1 (scanp + 1) rest
    | .scanError =>
      match r.1.err with
      | some err => .failed err
      | none => .value 0 r.1
    | _ => scanBuf r.1 (scanp + 1) rest

/-- Go `nonSpace`: is there a byte that is not white space. -/
def nonSpace (b : List Nat) : Bool := b.any (fun c => !json.isSpace c)

/-- The scanner of a new decoder, before `reset`. -/
def newScanner : json.scanner :=
  { step := .stateBeginValue, endTop := false, parseState := [], err := none, bytes := 0 }

/-- Go `Decoder.readValue` on the first call of `Decode`: the length of the first value in
`buf`, or the error. `rerr` is the error with which the reader ends; it is looked at
only when all of `buf` has been scanned without a verdict. -/
def readValue (buf : List Nat) (rerr : GoError) : Except GoError Nat :=
  match scanBuf newScanner.reset 0 buf with
  | .value n _ => .ok n
  | .failed e => .error (.SyntaxError e)
  | .exhausted s =>
    if rerr = .EOF then
      if (s.run 32).2 = .scanEnd then .ok buf.length
      else if nonSpace buf then .error .ErrUnexpectedEOF
      else .error .EOF
    else .error rerr

/-- What `encoding/json` does with the target of `Decode`: the type of `data` is declared
in the generated package `pkg/api/apiv1`, which is not part of the sources, so the step
`dec.d.unmarshal(v)` is a parameter. `unmarshal` takes the bytes of one complete JSON
value and the target as it is, and gives the target afterwards and the error (`nil`, an
`*UnmarshalTypeError`, the unknown-field error, ...). -/
structure Target (α : Type) where
  unmarshal : List Nat → α → α × Option GoError

/-- The state of the decoder after `d.Decode(&data)`. -/
structure Decoded (α : Type) where
  err : Option GoError
  data : α
  rest : List Nat

/-- Go `Decoder.Decode`, first call: read one value, then unmarshal it. -/
def Decode {α : Type} (t : Target α) (buf : List Nat) (rerr : GoError) (data : α) : Decoded α :=
  match readValue buf rerr with
  | .error e => { err := some e, data := data, rest := buf }
  | .ok n =>
    let u := t.unmarshal (buf.take n) data
    { err := u.2, data := u.1, rest := buf.drop n }

/-- Go `Decoder.More` after a successful `Decode`: `peek` skips white space; a read error
(the end of the stream included) makes it false, and so does a closing bracket
(byte 93) or brace (byte 125). -/
def More (rest : List Nat) : Bool :=
  match rest.dropWhile json.isSpace with
  | [] => false
  | c :: _ => c != 93 && c != 125

/-! ## The decode classifier (`Unmarshal`, handler.go) -/

/-- The request as `Unmarshal` sees it: the first value of the `Content-Type` header
if there is one (`Header.Get` gives the empty string otherwise), the bytes of the body
and whether the body has been closed. -/
structure Request where
  contentType : Option (List Nat)
  Body : List Nat
  bodyClosed : Bool := false

/-- Go `r.Header.Get("content-type")`. -/
def Request.HeaderGetContentType (r : Request) : List Nat := r.contentType.getD []

/-- What `Unmarshal` returns and leaves behind. -/
structure Unmarshaled (α : Type) where
  status : Int
  err : Option GoError
  data : α
  bodyClosed : Bool

/-- Go `fmt.Errorf` with a format that has no `%w`. -/
def Errorf (text : String) : GoError := .errorString text

/-- The part of `Unmarshal` after `defer r.Body.Close()`, handler.go lines 140-173:
status and error. `quote` is `strconv.Quote`, the rendering of the verb `%q`. -/
def unmarshalBody {α : Type} (quote : String → String) (t : Target α) (body : List Nat)
    (data : α) : Int × Option GoError × α :=
  let rd := MaxBytesReader body MaxBodyBytes
  let d := Decode t rd.1 rd.2 data
  match d.err with
  | some err =>
    match err.asSyntaxError with
    | some syntaxErr =>
      (http.StatusBadRequest,
        some (Errorf ("malformed json at position " ++ toString syntaxErr.Offset)), d.data)
    | none =>
      if err.isErrUnexpectedEOF then
        (http.StatusBadRequest, some (Errorf "malformed json"), d.data)
      else
        match err.asUnmarshalTypeError with
        | some unmarshalError =>
          (http.StatusBadRequest,
            some (Errorf ("invalid value " ++ quote unmarshalError.Field ++ " at position "
              ++ toString unmarshalError.Offset)), d.data)
        | none =>
          if hasLeading err.Error "json: unknown field" then
            (http.StatusBadRequest,
              some (Errorf ("unknown field " ++ trimLeading err.Error "json: unknown field ")),
              d.data)
          else if err.isEOF then
            (http.StatusBadRequest, some (Errorf "body must not be empty"), d.data)
          else if err.Error = "http: request body too large" then
            (http.StatusRequestEntityTooLarge, some err, d.data)
          else
            (http.StatusInternalServerError,
              some (.wrapError ("failed to decode json: " ++ err.Error) err), d.data)
  | none =>
    if More d.rest then
      (http.StatusBadRequest, some (Errorf "body must contain only one JSON object"), d.data)
    else (http.StatusOK, none, d.data)

/-- Go `Unmarshal`, handler.go lines 134-174; `data` is the target the caller points to.
The content-type test returns before the `defer`; after it every return runs the
deferred `r.Body.Close()`. The response writer is only passed on to
`http.MaxBytesReader` and is left out. -/
def Unmarshal {α : Type} (quote : String → String) (t : Target α) (r : Request) (data : α) :
    Unmarshaled α :=
  let ct := r.HeaderGetContentType
  if ct.length < 16 ∨ ct.take 16 ≠ ascii "application/json" then
    { status := http.StatusUnsupportedMediaType,
      err := some (Errorf "content-type is not application/json"),
      data := data, bodyClosed := r.bodyClosed }
  else
    let res := unmarshalBody quote t r.Body data
    { status := res.1, err := res.2.1, data := res.2.2, bodyClosed := true }

/-! ## Messages of the API and of the RPC layer

The packages `pkg/api/apiv1` and `pkg/pb` are generated code outside the sources; the
members below are the ones the handlers read and write. -/

namespace apiv1

structure User where
  CreatedAt : String
  Id : String
  Password : String
  UpdatedAt : String
  Username : String
  deriving DecidableEq, Repr

structure UserCreate where
  Id : String := ""
  Username : String := ""
  Password : String := ""
  deriving DecidableEq, Repr

structure Link where
  CreatedAt : String
  Id : String
  Images : List String
  Tags : List String
  Title : String
  UpdatedAt : String
  Url : String
  UserId : String
  deriving DecidableEq, Repr

structure LinkCreate where
  Id : String := ""
  Title : String := ""
  Url : String := ""
  Images : List String := []
  Tags : List String := []
  UserId : String := ""
  deriving DecidableEq, Repr

end apiv1

namespace pb

structure User where
  Id : String
  Username : String
  Password : String
  CreatedAt : String
  UpdatedAt : String
  deriving DecidableEq, Repr

structure ListUsersResponse where
  Users : List User
  deriving DecidableEq, Repr

structure CreateUserRequest where
  Id : String
  Username : String
  Password : String
  deriving DecidableEq, Repr

structure UpdateUserRequest where
  Id : String
  Username : String
  Password : String
  deriving DecidableEq, Repr

structure DeleteUserRequest where
  Id : String
  deriving DecidableEq, Repr

structure GetUserRequest where
  Id : String
  deriving DecidableEq, Repr

structure Link where
  Id : String
  Title : String
  Url : String
  Images : List String
  Tags : List String
  UserId : String
  CreatedAt : String
  UpdatedAt : String
  deriving DecidableEq, Repr

structure ListLinkResponse where
  Links : List Link
  deriving DecidableEq, Repr

structure CreateLinkRequest where
  Id : String
  Title : String
  Url : String
  Images : List String
  Tags : List String
  UserId : String
  deriving DecidableEq, Repr

structure UpdateLinkRequest where
  Id : String
  Title : String
  Url : String
  Images : List String
  Tags : List String
  UserId : String
  deriving DecidableEq, Repr

structure DeleteLinkRequest where
  Id : String
  deriving DecidableEq, Repr

structure GetLinkRequest where
  Id : String
  deriving DecidableEq, Repr

structure GetLinksByUserId where
  UserId : String
  deriving DecidableEq, Repr

end pb

/-- The gRPC status that `status.Convert` finds in the error of an RPC call: its code
and its message. -/
structure Status where
  Code : Nat
  Message : String
  deriving DecidableEq, Repr

/-- A call made on an RPC client, with its request message. -/
inductive RpcCall where
  | ListUsers
  | CreateUser (req : pb.CreateUserRequest)
  | DeleteUser (req : pb.DeleteUserRequest)
  | GetUser (req : pb.GetUserRequest)
  | UpdateUser (req : pb.UpdateUserRequest)
  | ListLinks
  | CreateLink (req : pb.CreateLinkRequest)
  | DeleteLink (req : pb.DeleteLinkRequest)
  | GetLink (req : pb.GetLinkRequest)
  | UpdateLink (req : pb.UpdateLinkRequest)
  | GetLinkByUserID (req : pb.GetLinksByUserId)
  deriving DecidableEq, Repr

/-- The interface `usersClient` of the gateway: each method answers with a message or
with an error, given here by its gRPC status. -/
structure usersClient where
  ListUsers : Except Status pb.ListUsersResponse
  CreateUser : pb.CreateUserRequest → Except Status Unit
  DeleteUser : pb.DeleteUserRequest → Except Status Unit
  GetUser : pb.GetUserRequest → Except Status pb.User
  UpdateUser : pb.UpdateUserRequest → Except Status Unit

/-- The interface `linksClient` of the gateway. -/
structure linksClient where
  ListLinks : Except Status pb.ListLinkResponse
  CreateLink : pb.CreateLinkRequest → Except Status Unit
  DeleteLink : pb.DeleteLinkRequest → Except Status Unit
  GetLink : pb.GetLinkRequest → Except Status pb.Link
  UpdateLink : pb.UpdateLinkRequest → Except Status Unit
  GetLinkByUserID : pb.GetLinksByUserId → Except Status pb.ListLinkResponse

/-! ## Response writer -/

/-- A Go value whose JSON text a handler writes to the response. -/
inductive Payload where
  | Error (e : apiv1.Error)
  | User (u : apiv1.User)
  | Users (us : List apiv1.User)
  | Link (l : apiv1.Link)
  | Links (ls : List apiv1.Link)
  deriving DecidableEq, Repr

/-- The `http.ResponseWriter`: the `Content-Type` header set on it, the status of the
first `WriteHeader` and the values written to the body, by the value that was encoded. -/
structure ResponseWriter where
  contentType : Option String := none
  status : Option Int := none
  body : List Payload := []
  deriving DecidableEq, Repr

/-- Go `w.Header().Set("Content-Type", v)`. -/
def ResponseWriter.SetContentType (w : ResponseWriter) (v : String) : ResponseWriter :=
  { w with contentType := some v }

/-- Go `w.WriteHeader(code)`: only the first call sets the status. -/
def ResponseWriter.WriteHeader (w : ResponseWriter) (code : Int) : ResponseWriter :=
  match w.status with
  | none => { w with status := some code }
  | some _ => w

/-- Go `w.Write` of the JSON text of `p`; a write before any `WriteHeader` sends status 200. -/
def ResponseWriter.Write (w : ResponseWriter) (p : Payload) : ResponseWriter :=
  let w1 := w.WriteHeader http.StatusOK
  { w1 with body := w1.body ++ [p] }

/-- Go `json.Marshal` on the values the handlers pass: structs of strings, string slices and
one optional string, for which it has no error case. -/
def jsonMarshal (p : Payload) : Except GoError Payload := .ok p

/-- Go `MarshalResponse`, handler.go lines 121-132. -/
def MarshalResponse (w : ResponseWriter) (status : Int) (response : Payload) : ResponseWriter :=
  let w1 := w.SetContentType "application/json"
  match jsonMarshal response with
  | .error _ => w1.WriteHeader http.StatusInternalServerError
  | .ok data => (w1.WriteHeader status).Write data

/-- Go `handleGRPCError`, handler.go lines 32-47; `err` is given by `status.Convert(err)`. -/
def handleGRPCError (w : ResponseWriter) (err : Status) : ResponseWriter :=
  let w1 := w.SetContentType "application/json"
  let code := err.Code
  let w2 := w1.WriteHeader (ConvertGRPCCodeToHTTP code)
  match jsonMarshal (.Error { Code := ConvertGRPCToErrorCode code, Message := none }) with
  | .error _ => w2.WriteHeader http.StatusInternalServerError
  | .ok data => w2.Write data

/-! ## Resource handlers (users.go, links.go) -/

/-- What a handler leaves behind: the response and the calls it made on its client. -/
structure Outcome where
  w : ResponseWriter
  calls : List RpcCall
  deriving DecidableEq, Repr

structure usersHandler where
  client : usersClient

structure linksHandler where
  client : linksClient

/-- The conversion of a `pb.User` in `GetUsers` and `GetUsersId`. -/
def toApiUser (u : pb.User) : apiv1.User :=
  { CreatedAt := u.CreatedAt, Id := u.Id, Password := u.Password, UpdatedAt := u.UpdatedAt,
    Username := u.Username }

/-- The conversion of a `pb.Link` in the link handlers. -/
def toApiLink (l : pb.Link) : apiv1.Link :=
  { CreatedAt := l.CreatedAt, Id := l.Id, Images := l.Images, Tags := l.Tags, Title := l.Title,
    UpdatedAt := l.UpdatedAt, Url := l.Url, UserId := l.UserId }

/-- The branch `if err != nil` after `Unmarshal` that the four mutation handlers share. -/
def writeDecodeFailure (w : ResponseWriter) (code : Int) (err : GoError) : ResponseWriter :=
  let errStr := err.Error
  MarshalResponse w code (.Error { Code := ConvertHTTPToErrorCode code, Message := some errStr })

/-- Go `GetUsers`, users.go lines 17-40. -/
def usersHandler.GetUsers (h : usersHandler) (w : ResponseWriter) : Outcome :=
  match h.client.ListUsers with
  | .error err => { w := handleGRPCError w err, calls := [.ListUsers] }
  | .ok resp =>
    { w := MarshalResponse w http.StatusOK (.Users (resp.Users.map toApiUser)),
      calls := [.ListUsers] }

/-- Go `PostUsers`, users.go lines 42-71. -/
def usersHandler.PostUsers (quote : String → String) (t : Target apiv1.UserCreate)
    (h : usersHandler) (w : ResponseWriter) (r : Request) : Outcome :=
  let um := Unmarshal quote t r ({} : apiv1.UserCreate)
  match um.err with
  | some err => { w := writeDecodeFailure w um.status err, calls := [] }
  | none =>
    let u := um.data
    let req : pb.CreateUserRequest := { Id := u.Id, Username := u.Username, Password := u.Password }
    match h.client.CreateUser req with
    | .error err => { w := handleGRPCError w err, calls := [.CreateUser req] }
    | .ok _ => { w := w.WriteHeader http.StatusCreated, calls := [.CreateUser req] }

/-- Go `DeleteUsersId`, users.go lines 73-83. -/
def usersHandler.DeleteUsersId (h : usersHandler) (w : ResponseWriter) (id : String) : Outcome :=
  let req : pb.DeleteUserRequest := { Id := id }
  match h.client.DeleteUser req with
  | .error err => { w := handleGRPCError w err, calls := [.DeleteUser req] }
  | .ok _ => { w := w.WriteHeader http.StatusNoContent, calls := [.DeleteUser req] }

/-- Go `GetUsersId`, users.go lines 85-104. -/
def usersHandler.GetUsersId (h : usersHandler) (w : ResponseWriter) (id : String) : Outcome :=
  let req : pb.GetUserRequest := { Id := id }
  match h.client.GetUser req with
  | .error err => { w := handleGRPCError w err, calls := [.GetUser req] }
  | .ok u => { w := MarshalResponse w http.StatusOK (.User (toApiUser u)), calls := [.GetUser req] }

/-- Go `PutUsersId`, users.go lines 106-134. -/
def usersHandler.PutUsersId (quote : String → String) (t : Target apiv1.UserCreate)
    (h : usersHandler) (w : ResponseWriter) (r : Request) (_id : String) : Outcome :=
  let um := Unmarshal quote t r ({} : apiv1.UserCreate)
  match um.err with
  | some err => { w := writeDecodeFailure w um.status err, calls := [] }
  | none =>
    let u := um.data
    let req : pb.UpdateUserRequest := { Id := u.Id, Username := u.Username, Password := u.Password }
    match h.client.UpdateUser req with
    | .error err => { w := handleGRPCError w err, calls := [.UpdateUser req] }
    | .ok _ => { w := w.WriteHeader http.StatusNoContent, calls := [.UpdateUser req] }

/-- Go `GetLinks`, links.go lines 17-44. -/
def linksHandler.GetLinks (h : linksHandler) (w : ResponseWriter) : Outcome :=
  match h.client.ListLinks with
  | .error err => { w := handleGRPCError w err, calls := [.ListLinks] }
  | .ok resp =>
    { w := MarshalResponse w http.StatusOK (.Links (resp.Links.map toApiLink)),
      calls := [.ListLinks] }

/-- Go `PostLinks`, links.go lines 46-78. -/
def linksHandler.PostLinks (quote : String → String) (t : Target apiv1.LinkCreate)
    (h : linksHandler) (w : ResponseWriter) (r : Request) : Outcome :=
  let um := Unmarshal quote t r ({} : apiv1.LinkCreate)
  match um.err with
  | some err => { w := writeDecodeFailure w um.status err, calls := [] }
  | none =>
    let l := um.data
    let req : pb.CreateLinkRequest :=
      { Id := l.Id, Title := l.Title, Url := l.Url, Images := l.Images, Tags := l.Tags,
        UserId := l.UserId }
    match h.client.CreateLink req with
    | .error err => { w := handleGRPCError w err, calls := [.CreateLink req] }
    | .ok _ => { w := w.WriteHeader http.StatusCreated, calls := [.CreateLink req] }

/-- Go `DeleteLinksId`, links.go lines 80-90. -/
def linksHandler.DeleteLinksId (h : linksHandler) (w : ResponseWriter) (id : String) : Outcome :=
  let req : pb.DeleteLinkRequest := { Id := id }
  match h.client.DeleteLink req with
  | .error err => { w := handleGRPCError w err, calls := [.DeleteLink req] }
  | .ok _ => { w := w.WriteHeader http.StatusNoContent, calls := [.DeleteLink req] }

/-- Go `GetLinksId`, links.go lines 92-114. -/
def linksHandler.GetLinksId (h : linksHandler) (w : ResponseWriter) (id : String) : Outcome :=
  let req : pb.GetLinkRequest := { Id := id }
  match h.client.GetLink req with
  | .error err => { w := handleGRPCError w err, calls := [.GetLink req] }
  | .ok link =>
    { w := MarshalResponse w http.StatusOK (.Link (toApiLink link)), calls := [.GetLink req] }

/-- Go `PutLinksId`, links.go lines 116-146. -/
def linksHandler.PutLinksId (quote : String → String) (t : Target apiv1.LinkCreate)
    (h : linksHandler) (w : ResponseWriter) (r : Request) (_id : String) : Outcome :=
  let um := Unmarshal quote t r ({} : apiv1.LinkCreate)
  match um.err with
  | some err => { w := writeDecodeFailure w um.status err, calls := [] }
  | none =>
    let l := um.data
    let req : pb.UpdateLinkRequest :=
      { Id := l.Id, Title := l.Title, Url := l.Url, Images := l.Images, Tags := l.Tags,
        UserId := l.UserId }
    match h.client.UpdateLink req with
    | .error err => { w := handleGRPCError w err, calls := [.UpdateLink req] }
    | .ok _ => { w := w.WriteHeader http.StatusNoContent, calls := [.UpdateLink req] }

/-- Go `GetLinksUserUserID`, links.go lines 148-174. -/
def linksHandler.GetLinksUserUserID (h : linksHandler) (w : ResponseWriter) (userID : String) :
    Outcome :=
  let req : pb.GetLinksByUserId := { UserId := userID }
  match h.client.GetLinkByUserID req with
  | .error err => { w := handleGRPCError w err, calls := [.GetLinkByUserID req] }
  | .ok resp =>
    { w := MarshalResponse w http.StatusOK (.Links (resp.Links.map toApiLink)),
      calls := [.GetLinkByUserID req] }

/-! ## RPC services (`usergrpc/handler.go`, `linkgrpc/handler.go`): create and get -/

/-- The value `errors.New(text)` returns: a pointer to a new `errorString`, given by its
address. Two such values are equal when they are the same pointer. -/
structure ErrorString where
  addr : Nat
  s : String
  deriving DecidableEq, Repr

/-- The Go `error` values a repository returns: an `*errors.errorString`, a value that
wraps another error (`fmt.Errorf` with `%w`, or any type with an `Unwrap` method), or a
value of another type (a driver error, `context.DeadlineExceeded`, ...) given by the
name of its type and its text. None of these types has an `Is` method. -/
inductive RepoError where
  | errorString (e : ErrorString)
  | wrapError (msg : String) (err : RepoError)
  | otherError (typeName : String) (msg : String)
  deriving DecidableEq, Repr

/-- The method `Error()`. -/
def RepoError.Error : RepoError → String
  | .errorString e => e.s
  | .wrapError msg _ => msg
  | .otherError _ msg => msg

/-- All `errorString` pointers of `err` lie below the address `heap`: `err` was built
before the heap grew past `heap`. -/
def RepoError.allocatedBelow (heap : Nat) : RepoError → Bool
  | .errorString e => decide (e.addr < heap)
  | .wrapError _ err => err.allocatedBelow heap
  | .otherError _ _ => true

namespace errors

/-- Go `errors.New(text)` on a heap whose next free address is `heap`: the new pointer. -/
def New (heap : Nat) (text : String) : ErrorString := { addr := heap, s := text }

/-- Go `errors.Is(err, target)` for a target made by `errors.New`: `err == target` holds
only for the same pointer; otherwise the search goes on in what `err` wraps. -/
def Is : RepoError → ErrorString → Bool
  | .errorString e, target => e.addr == target.addr
  | .wrapError _ err, target => Is err target
  | .otherError _ _, _ => false

end errors

/-- Go `status.Error(c, msg)` for a code other than `codes.OK`. -/
def statusError (c : Nat) (msg : String) : Status := { Code := c, Message := msg }

namespace database
/-! The request and record types of `internal/database`, by the members the services use. -/

structure CreateUserReq where
  ID : List Nat
  Username : String
  Password : String
  deriving DecidableEq, Repr

structure User where
  ID : List Nat
  Username : String
  Password : String
  CreatedAt : Int
  UpdatedAt : Int
  deriving DecidableEq, Repr

structure CreateLinkReq where
  ID : List Nat
  URL : String
  Title : String
  Tags : List String
  Images : List String
  UserID : String
  deriving DecidableEq, Repr

structure Link where
  ID : List Nat
  Title : String
  URL : String
  Images : List String
  Tags : List String
  UserID : String
  CreatedAt : Int
  UpdatedAt : Int
  deriving DecidableEq, Repr

end database

/-- The library functions the services call: `uuid.Parse` and `primitive.ObjectIDFromHex`
(an error is given by its text), `UUID.String`, `ObjectID.Hex` and
`Time.Format(time.RFC3339)`. Identifiers are byte lists, times are integers. -/
structure Lib where
  uuidParse : String → Except String (List Nat)
  uuidString : List Nat → String
  ObjectIDFromHex : String → Except String (List Nat)
  Hex : List Nat → String
  Format : Int → String

namespace usergrpc

/-- The methods of the interface `usersRepository` that `CreateUser` and `GetUser` call. -/
structure usersRepository where
  Create : database.CreateUserReq → Except RepoError Unit
  FindByID : List Nat → Except RepoError database.User

structure Handler where
  usersRepository : usersRepository

/-- Go `CreateUser`, usergrpc/handler.go lines 28-54; `heap` is the next free address when
`errors.New("conflict")` is evaluated. -/
def Handler.CreateUser (lib : Lib) (heap : Nat) (h : Handler) (req : pb.CreateUserRequest) :
    Except Status Unit :=
  match lib.uuidParse req.Id with
  | .error e => .error (statusError codes.InvalidArgument e)
  | .ok parsedUUID =>
    match h.usersRepository.Create
        { ID := parsedUUID, Username := req.Username, Password := req.Password } with
    | .error err =>
      if errors.Is err (errors.New heap "conflict") then
        .error (statusError codes.AlreadyExists err.Error)
      else .error (statusError codes.Internal err.Error)
    | .ok _ => .ok ()

/-- Go `GetUser`, usergrpc/handler.go lines 56-82. -/
def Handler.GetUser (lib : Lib) (heap : Nat) (h : Handler) (req : pb.GetUserRequest) :
    Except Status pb.User :=
  match lib.uuidParse req.Id with
  | .error e => .error (statusError codes.InvalidArgument e)
  | .ok parsedUUID =>
    match h.usersRepository.FindByID parsedUUID with
    | .error err =>
      if errors.Is err (errors.New heap "not found") then
        .error (statusError codes.NotFound err.Error)
      else .error (statusError codes.Internal err.Error)
    | .ok user =>
      .ok { Id := lib.uuidString user.ID, Username := user.Username, Password := user.Password,
            CreatedAt := lib.Format user.CreatedAt, UpdatedAt := lib.Format user.UpdatedAt }

end usergrpc

namespace linkgrpc

/-- The methods of the interface `linksRepository` that `CreateLink` and `GetLink` call. -/
structure linksRepository where
  Create : database.CreateLinkReq → Except RepoError Unit
  FindByID : List Nat → Except RepoError database.Link

structure Handler where
  linksRepository : linksRepository

/-- Go `CreateLink`, linkgrpc/handler.go lines 62-89. -/
def Handler.CreateLink (lib : Lib) (heap : Nat) (h : Handler) (request : pb.CreateLinkRequest) :
    Except Status Unit :=
  match lib.ObjectIDFromHex request.Id with
  | .error e => .error (statusError codes.InvalidArgument e)
  | .ok objectID =>
    match h.linksRepository.Create
        { ID := objectID, URL := request.Url, Title := request.Title, Tags := request.Tags,
          Images := request.Images, UserID := request.UserId } with
    | .error err =>
      if errors.Is err (errors.New heap "conflict") then
        .error (statusError codes.AlreadyExists err.Error)
      else .error (statusError codes.Internal err.Error)
    | .ok _ => .ok ()

/-- Go `GetLink`, linkgrpc/handler.go lines 91-119. -/
def Handler.GetLink (lib : Lib) (heap : Nat) (h : Handler) (request : pb.GetLinkRequest) :
    Except Status pb.Link :=
  match lib.ObjectIDFromHex request.Id with
  | .error e => .error (statusError codes.InvalidArgument e)
  | .ok objectID =>
    match h.linksRepository.FindByID objectID with
    | .error err =>
      if errors.Is err (errors.New heap "not found") then
        .error (statusError codes.NotFound err.Error)
      else .error (statusError codes.Internal err.Error)
    | .ok l =>
      .ok { Id := lib.Hex l.ID, Title := l.Title, Url := l.URL, Images := l.Images,
            Tags := l.Tags, UserId := l.UserID, CreatedAt := lib.Format l.CreatedAt,
            UpdatedAt := lib.Format l.UpdatedAt }

end linkgrpc

/-! ## Sample data -/

/-- A target whose unmarshal step takes every JSON value without an error, as a
`*interface{}` does, and leaves the target as it is. -/
def anyTarget {α : Type} : Target α := { unmarshal := fun _ d => (d, none) }

/-- The rendering of `%q` on a text of printable ASCII bytes without a double quote or
a backslash, where `strconv.Quote` only adds the enclosing double quotes. -/
def quotePlain (s : String) : String := "\"" ++ s ++ "\""

/-- A request with a JSON content type and the given body. -/
def jsonRequest (body : List Nat) : Request :=
  { contentType := some (ascii "application/json"), Body := body }

/-- A request with the header `Content-Type: text/plain` and an empty body. -/
def plainRequest : Request := { contentType := some (ascii "text/plain"), Body := [] }

/-- The outcome of a mutation handler that stops at a decode failure: no call was made,
the status is `status`, and the body is the envelope with the code of `status` and the
text of `err`. -/
def Outcome.isDecodeFailure (o : Outcome) (status : Int) (err : GoError) : Prop :=
  o.calls = [] ∧ o.w.status = some status
    ∧ o.w.body = [.Error { Code := ConvertHTTPToErrorCode status, Message := some err.Error }]

/-- The response to an RPC error with code `c`: the status of `c`, and the envelope with
the error code of `c` and no message. -/
def ResponseWriter.isRpcFailure (w : ResponseWriter) (c : Nat) : Prop :=
  w.status = some (ConvertGRPCCodeToHTTP c)
    ∧ w.body = [.Error { Code := ConvertGRPCToErrorCode c, Message := none }]

/-- A users client all of whose methods fail with the status `st`. -/
def failingUsersClient (st : Status) : usersClient :=
  { ListUsers := .error st, CreateUser := fun _ => .error st, DeleteUser := fun _ => .error st,
    GetUser := fun _ => .error st, UpdateUser := fun _ => .error st }

/-- A links client all of whose methods fail with the status `st`. -/
def failingLinksClient (st : Status) : linksClient :=
  { ListLinks := .error st, CreateLink := fun _ => .error st, DeleteLink := fun _ => .error st,
    GetLink := fun _ => .error st, UpdateLink := fun _ => .error st,
    GetLinkByUserID := fun _ => .error st }

/-- A not-found status as the user service would send it. -/
def notFoundStatus : Status := { Code := codes.NotFound, Message := "user 42 is not stored" }

/-- The sentinel `database.ErrConflict`-like value a repository might return: an
`errorString` with the text "conflict", allocated at address 3. -/
def storedConflict : RepoError := .errorString { addr := 3, s := "conflict" }

/-- A library whose identifier parsers take every text. -/
def sampleLib : Lib :=
  { uuidParse := fun s => .ok (ascii s), uuidString := fun _ => "",
    ObjectIDFromHex := fun s => .ok (ascii s), Hex := fun _ => "", Format := fun _ => "" }

/-- A users repository whose methods fail with `err`. -/
def failingUsersRepository (err : RepoError) : usergrpc.usersRepository :=
  { Create := fun _ => .error err, FindByID := fun _ => .error err }

/-- A links repository whose methods fail with `err`. -/
def failingLinksRepository (err : RepoError) : linkgrpc.linksRepository :=
  { Create := fun _ => .error err, FindByID := fun _ => .error err }

/-- A body of 70,000 bytes, each the letter x. -/
def oversizeGarbage : List Nat := List.replicate 70000 120

/-- A body of 70,000 spaces. -/
def oversizeBlank : List Nat := List.replicate 70000 32

/-- The answer of `Unmarshal` has the status `status` and a new error of the text `msg`. -/
def Unmarshaled.answers {α : Type} (u : Unmarshaled α) (status : Int) (msg : String) : Prop :=
  u.status = status ∧ u.err = some (Errorf msg)

/-- The call `d.Decode(&data)` inside `Unmarshal`: the decoder reads the body of the
request through the capped reader. -/
def decodeBody {α : Type} (r : Request) (t : Target α) (data : α) : Decoded α :=
  Decode t (MaxBytesReader r.Body MaxBodyBytes).1 (MaxBytesReader r.Body MaxBodyBytes).2 data

/-- The body `{"id":}`: a syntax error at its seventh byte. -/
def badSyntaxBody : List Nat := ascii "\x7b\"id\":\x7d"

/-- The body `{"id":"1"}`. -/
def oneObjectBody : List Nat := ascii "\x7b\"id\":\"1\"\x7d"

/-- The body `{"id":"1"}{"id":"2"}`: two objects back to back. -/
def twoObjectsBody : List Nat := ascii "\x7b\"id\":\"1\"\x7d\x7b\"id\":\"2\"\x7d"

/-- The body `{"id":"1"}}`: one object and a closing brace after it. -/
def trailingBraceBody : List Nat := ascii "\x7b\"id\":\"1\"\x7d\x7d"

/-- The body `{"id":"1"}]`: one object and a closing bracket after it. -/
def trailingBracketBody : List Nat := ascii "\x7b\"id\":\"1\"\x7d]"

/-- A users client all of whose methods succeed; `GetUser` gives back a user with the id
asked for. -/
def acceptingUsersClient : usersClient :=
  { ListUsers := .ok { Users := [] }, CreateUser := fun _ => .ok (),
    DeleteUser := fun _ => .ok (),
    GetUser := fun req =>
      .ok { Id := req.Id, Username := "", Password := "", CreatedAt := "", UpdatedAt := "" },
    UpdateUser := fun _ => .ok () }

/-- A target for `apiv1.UserCreate` that knows the one body `{"id":"1"}`: it sets `Id` to
the text 1 for it, and takes every other value without a change and without an error. -/
def sampleUserTarget : Target apiv1.UserCreate :=
  { unmarshal := fun b d => if b = oneObjectBody then ({ d with Id := "1" }, none) else (d, none) }

/-- A target for `apiv1.LinkCreate` that knows the one body `{"id":"1"}`, in the same way. -/
def sampleLinkTarget : Target apiv1.LinkCreate :=
  { unmarshal := fun b d => if b = oneObjectBody then ({ d with Id := "1" }, none) else (d, none) }

/-- The bytes that the decoder of `Unmarshal` gets from the capped reader. -/
def bodyBuf (r : Request) : List Nat := (MaxBytesReader r.Body MaxBodyBytes).1

/-- The error with which the capped reader of `Unmarshal` ends. -/
def bodyEnd (r : Request) : GoError := (MaxBytesReader r.Body MaxBodyBytes).2

/-- The body `{"id":`, which ends inside its first value. -/
def truncatedBody : List Nat := ascii "\x7b\"id\":"

/-- The body `{"id":1}`: a number where the target has a string. -/
def typeErrorBody : List Nat := ascii "\x7b\"id\":1\x7d"

/-- The body `{"id":"1","unknownField":true}`. -/
def unknownFieldBody : List Nat := ascii "\x7b\"id\":\"1\",\"unknownField\":true\x7d"

/-- The type error that `encoding/json` reports for `{"id":1}` on a struct `UserCreate`
whose member `id` is a string. -/
def idTypeError : json.UnmarshalTypeError :=
  { Value := "number", GoType := "string", Offset := 7, Struct := "UserCreate", Field := "id" }

/-- A sample of the unmarshal step for `apiv1.UserCreate` with unknown fields disallowed,
on three bodies: `{"id":"1"}` sets `Id`; `{"id":1}` gives the type error `idTypeError`;
`{"id":"1","unknownField":true}` sets `Id` and gives the unknown-field error. Every
other value is taken without a change and without an error. -/
def strictUserTarget : Target apiv1.UserCreate :=
  { unmarshal := fun b d =>
      if b = oneObjectBody then ({ d with Id := "1" }, none)
      else if b = typeErrorBody then (d, some (.UnmarshalTypeError idTypeError))
      else if b = unknownFieldBody then
        ({ d with Id := "1" },
          some (.errorString ("json: unknown field " ++ quotePlain "unknownField")))
      else (d, none) }

/-- A target whose type has an `UnmarshalJSON` method that fails on every value with
`errors.New(text)`. -/
def refusingTarget (text : String) : Target Unit :=
  { unmarshal := fun _ d => (d, some (.errorString text)) }

/-! # Theorems -/

/-! ## Status translator -/

/-- C1: `ConvertGRPCCodeToHTTP` and `ConvertGRPCToErrorCode` give the table value on each
of the seventeen gRPC codes, and 500 with `internal_server_error` on every code value
above the last enumerated one. -/
theorem C1_status_table :
    (ConvertGRPCCodeToHTTP codes.OK = 200
      ∧ ConvertGRPCCodeToHTTP codes.Canceled = 408
      ∧ ConvertGRPCCodeToHTTP codes.Unknown = 500
      ∧ ConvertGRPCCodeToHTTP codes.InvalidArgument = 400
      ∧ ConvertGRPCCodeToHTTP codes.DeadlineExceeded = 504
      ∧ ConvertGRPCCodeToHTTP codes.NotFound = 404
      ∧ ConvertGRPCCodeToHTTP codes.AlreadyExists = 409
      ∧ ConvertGRPCCodeToHTTP codes.PermissionDenied = 403
      ∧ ConvertGRPCCodeToHTTP codes.ResourceExhausted = 429
      ∧ ConvertGRPCCodeToHTTP codes.FailedPrecondition = 400
      ∧ ConvertGRPCCodeToHTTP codes.Aborted = 409
      ∧ ConvertGRPCCodeToHTTP codes.OutOfRange = 400
      ∧ ConvertGRPCCodeToHTTP codes.Unimplemented = 501
      ∧ ConvertGRPCCodeToHTTP codes.Internal = 500
      ∧ ConvertGRPCCodeToHTTP codes.Unavailable = 503
      ∧ ConvertGRPCCodeToHTTP codes.DataLoss = 500
      ∧ ConvertGRPCCodeToHTTP codes.Unauthenticated = 401)
    ∧ (ConvertGRPCToErrorCode codes.Internal = .InternalServerError
      ∧ ConvertGRPCToErrorCode codes.Unknown = .InternalServerError
      ∧ ConvertGRPCToErrorCode codes.DataLoss = .InternalServerError
      ∧ ConvertGRPCToErrorCode codes.NotFound = .NotFound
      ∧ ConvertGRPCToErrorCode codes.InvalidArgument = .BadRequest
      ∧ ConvertGRPCToErrorCode codes.FailedPrecondition = .BadRequest
      ∧ ConvertGRPCToErrorCode codes.OutOfRange = .BadRequest
      ∧ ConvertGRPCToErrorCode codes.Aborted = .Conflict
      ∧ ConvertGRPCToErrorCode codes.AlreadyExists = .Conflict
      ∧ ConvertGRPCToErrorCode codes.OK = .InternalServerError
      ∧ ConvertGRPCToErrorCode codes.Canceled = .InternalServerError
      ∧ ConvertGRPCToErrorCode codes.DeadlineExceeded = .InternalServerError
      ∧ ConvertGRPCToErrorCode codes.PermissionDenied = .InternalServerError
      ∧ ConvertGRPCToErrorCode codes.ResourceExhausted = .InternalServerError
      ∧ ConvertGRPCToErrorCode codes.Unimplemented = .InternalServerError
      ∧ ConvertGRPCToErrorCode codes.Unavailable = .InternalServerError
      ∧ ConvertGRPCToErrorCode codes.Unauthenticated = .InternalServerError)
    ∧ (∀ c : Nat, codes.Unauthenticated < c →
        ConvertGRPCCodeToHTTP c = 500 ∧ ConvertGRPCToErrorCode c = .InternalServerError) := by
  refine ⟨by decide, by decide, ?_⟩
  intro c hc
  simp only [codes.Unauthenticated] at hc
  have h : ∀ k : Nat, k ≤ 16 → c ≠ k := fun k hk => by omega
  constructor
  · simp [ConvertGRPCCodeToHTTP, codes.OK, codes.Canceled, codes.Unknown, codes.InvalidArgument,
      codes.DeadlineExceeded, codes.NotFound, codes.AlreadyExists, codes.PermissionDenied,
      codes.ResourceExhausted, codes.FailedPrecondition, codes.Aborted, codes.OutOfRange,
      codes.Unimplemented, codes.Internal, codes.Unavailable, codes.DataLoss,
      codes.Unauthenticated, h, http.StatusInternalServerError]
  · simp [ConvertGRPCToErrorCode, codes.Unknown, codes.InvalidArgument,
      codes.NotFound, codes.AlreadyExists, codes.FailedPrecondition, codes.Aborted,
      codes.OutOfRange, codes.Internal, codes.DataLoss, h]

/-- The code value 17, the first one outside the enumerated set, gives 500 and
`internal_server_error`. -/
theorem C1_status_table_witness :
    codes.Unauthenticated < 17
      ∧ ConvertGRPCCodeToHTTP 17 = 500 ∧ ConvertGRPCToErrorCode 17 = .InternalServerError :=
  ⟨by decide, C1_status_table.2.2 17 (by decide)⟩

/-- C8: `ConvertHTTPToErrorCode` gives `bad_request` on 400, 413 and 415, `conflict` on
409, and `internal_server_error` on 500 and on every other integer. -/
theorem C8_http_error_code (s : Int) :
    ((s = 400 ∨ s = 413 ∨ s = 415) → ConvertHTTPToErrorCode s = .BadRequest)
    ∧ (s = 409 → ConvertHTTPToErrorCode s = .Conflict)
    ∧ (s = 500 → ConvertHTTPToErrorCode s = .InternalServerError)
    ∧ ((s ≠ 400 ∧ s ≠ 413 ∧ s ≠ 415 ∧ s ≠ 409) →
        ConvertHTTPToErrorCode s = .InternalServerError) := by
  refine ⟨?_, ?_, ?_, ?_⟩
  · rintro (h | h | h) <;> subst h <;> decide
  · intro h; subst h; decide
  · intro h; subst h; decide
  · rintro ⟨h1, h2, h3, h4⟩
    simp [ConvertHTTPToErrorCode, http.StatusBadRequest, http.StatusInternalServerError,
      http.StatusRequestEntityTooLarge, http.StatusUnsupportedMediaType, http.StatusConflict,
      h1, h2, h3, h4]

/-- The statuses 413 and -7 under `ConvertHTTPToErrorCode`. -/
theorem C8_http_error_code_witness :
    ConvertHTTPToErrorCode 413 = .BadRequest ∧ ConvertHTTPToErrorCode (-7) = .InternalServerError :=
  ⟨(C8_http_error_code 413).1 (Or.inr (Or.inl rfl)),
    (C8_http_error_code (-7)).2.2.2 (by decide)⟩

/-! ## Decode classifier: content type -/

theorem ascii_json_length : (ascii "application/json").length = 16 := by decide

/-- The content-type test of `Unmarshal` fails exactly when the literal is not a prefix
of the header value. -/
theorem contentType_test_iff (ct : List Nat) :
    (ct.length < 16 ∨ ct.take 16 ≠ ascii "application/json")
      ↔ ¬ (ascii "application/json" <+: ct) := by
  rw [List.prefix_iff_eq_take, ascii_json_length]
  constructor
  · rintro (h | h) heq
    · have := congrArg List.length heq
      rw [ascii_json_length, List.length_take] at this
      omega
    · exact h heq.symm
  · intro h
    right
    exact fun heq => h heq.symm

/-- After the content-type test `Unmarshal` only answers 400, 413, 500 or 200. -/
theorem unmarshalBody_status {α : Type} (quote : String → String) (t : Target α)
    (body : List Nat) (data : α) :
    (unmarshalBody quote t body data).1 = 400 ∨ (unmarshalBody quote t body data).1 = 413
      ∨ (unmarshalBody quote t body data).1 = 500 ∨ (unmarshalBody quote t body data).1 = 200 := by
  unfold unmarshalBody
  simp only [http.StatusBadRequest, http.StatusRequestEntityTooLarge,
    http.StatusInternalServerError, http.StatusOK]
  repeat' split
  all_goals simp

/-- C2: `Unmarshal` answers 415 with the text "content-type is not application/json"
exactly when the `Content-Type` header is absent or its value does not begin with
`application/json`; the request is arbitrary, so no body changes this. -/
theorem C2_content_type {α : Type} (quote : String → String) (t : Target α) (r : Request)
    (data : α) :
    ((Unmarshal quote t r data).status = 415
        ∧ (Unmarshal quote t r data).err
            = some (GoError.errorString "content-type is not application/json"))
      ↔ (r.contentType = none
          ∨ ∃ v, r.contentType = some v ∧ ¬ (ascii "application/json" <+: v)) := by
  have hget : (r.contentType = none
          ∨ ∃ v, r.contentType = some v ∧ ¬ (ascii "application/json" <+: v))
      ↔ ¬ (ascii "application/json" <+: r.HeaderGetContentType) := by
    unfold Request.HeaderGetContentType
    cases hct : r.contentType with
    | none => simp; decide
    | some v => simp
  rw [hget, ← contentType_test_iff]
  unfold Unmarshal
  by_cases h : r.HeaderGetContentType.length < 16
      ∨ r.HeaderGetContentType.take 16 ≠ ascii "application/json"
  · simp only [h, if_true]
    simp [http.StatusUnsupportedMediaType, Errorf]
  · simp only [h, if_false, iff_false, not_and]
    intro hs
    have := unmarshalBody_status quote t r.Body data
    rcases this with h1 | h1 | h1 | h1 <;> rw [h1] at hs <;> omega

/-- A request with `Content-Type: text/plain` is answered with 415. -/
theorem C2_content_type_witness :
    (Unmarshal quotePlain anyTarget plainRequest ()).status = 415
      ∧ (Unmarshal quotePlain anyTarget plainRequest ()).err
          = some (GoError.errorString "content-type is not application/json") :=
  (C2_content_type quotePlain anyTarget plainRequest ()).mpr (Or.inr ⟨_, rfl, by decide⟩)

/-! ## Decode classifier: closing the body -/

/-- C9, as stated, fails: on the 415 path `Unmarshal` returns before the `defer`, and the
body of the request is still open afterwards. -/
theorem C9_counterexample :
    plainRequest.bodyClosed = false
      ∧ (Unmarshal quotePlain anyTarget plainRequest ()).status = 415
      ∧ (Unmarshal quotePlain anyTarget plainRequest ()).bodyClosed = false := by
  decide

/-- C9, amended: when the content-type test passes, the body is closed when `Unmarshal`
returns, whatever the outcome (200, 400, 413 or 500); when the test fails, `Unmarshal`
leaves the body as it found it. -/
theorem C9_body_closed {α : Type} (quote : String → String) (t : Target α) (r : Request)
    (data : α) :
    (ascii "application/json" <+: r.HeaderGetContentType →
        (Unmarshal quote t r data).bodyClosed = true)
    ∧ (¬ (ascii "application/json" <+: r.HeaderGetContentType) →
        (Unmarshal quote t r data).bodyClosed = r.bodyClosed) := by
  constructor
  · intro h
    have h2 : ¬ (r.HeaderGetContentType.length < 16
        ∨ r.HeaderGetContentType.take 16 ≠ ascii "application/json") := by
      rw [contentType_test_iff]; exact not_not.mpr h
    simp only [Unmarshal, h2, if_false]
  · intro h
    have h2 := (contentType_test_iff r.HeaderGetContentType).mpr h
    simp only [Unmarshal, h2, if_true]

/-- An empty body under a JSON content type is closed on return; the body of a
`text/plain` request is left as it was. -/
theorem C9_body_closed_witness :
    (Unmarshal quotePlain anyTarget (jsonRequest []) ()).bodyClosed = true
      ∧ (Unmarshal quotePlain anyTarget plainRequest ()).bodyClosed = plainRequest.bodyClosed :=
  ⟨(C9_body_closed quotePlain anyTarget (jsonRequest []) ()).1 (by decide),
    (C9_body_closed quotePlain anyTarget plainRequest ()).2 (by decide)⟩

/-! ## Handlers: decode failures and RPC errors -/

/-- The effect of `MarshalResponse` on a new response writer. -/
theorem MarshalResponse_new (status : Int) (p : Payload) :
    MarshalResponse {} status p
      = { contentType := some "application/json", status := some status, body := [p] } := by
  simp [MarshalResponse, jsonMarshal, ResponseWriter.SetContentType, ResponseWriter.WriteHeader,
    ResponseWriter.Write]

/-- The effect of `handleGRPCError` on a new response writer. -/
theorem handleGRPCError_new (st : Status) :
    handleGRPCError {} st
      = { contentType := some "application/json", status := some (ConvertGRPCCodeToHTTP st.Code),
          body := [.Error { Code := ConvertGRPCToErrorCode st.Code, Message := none }] } := by
  simp [handleGRPCError, jsonMarshal, ResponseWriter.SetContentType, ResponseWriter.WriteHeader,
    ResponseWriter.Write]

/-- C6: when `Unmarshal` fails with a status and an error, each of the four mutation
handlers (`PostUsers`, `PutUsersId`, `PostLinks`, `PutLinksId`) makes no call on its RPC
client and writes that status with the envelope whose code is `ConvertHTTPToErrorCode`
of the status and whose message is the text of the error. -/
theorem C6_decode_failure (quote : String → String) (tu : Target apiv1.UserCreate)
    (tl : Target apiv1.LinkCreate) (hu : usersHandler) (hl : linksHandler) (r : Request)
    (id : String) (err : GoError) :
    ((Unmarshal quote tu r {}).err = some err →
      (hu.PostUsers quote tu {} r).isDecodeFailure (Unmarshal quote tu r {}).status err
      ∧ (hu.PutUsersId quote tu {} r id).isDecodeFailure (Unmarshal quote tu r {}).status err)
    ∧ ((Unmarshal quote tl r {}).err = some err →
      (hl.PostLinks quote tl {} r).isDecodeFailure (Unmarshal quote tl r {}).status err
      ∧ (hl.PutLinksId quote tl {} r id).isDecodeFailure (Unmarshal quote tl r {}).status err) := by
  constructor
  · intro h
    simp [usersHandler.PostUsers, usersHandler.PutUsersId, h, writeDecodeFailure,
      MarshalResponse_new, Outcome.isDecodeFailure]
  · intro h
    simp [linksHandler.PostLinks, linksHandler.PutLinksId, h, writeDecodeFailure,
      MarshalResponse_new, Outcome.isDecodeFailure]

/-- A `text/plain` request to `PostUsers` and to `PutLinksId`: no call, status 415, code
`bad_request` and the content-type message. -/
theorem C6_decode_failure_witness :
    ((usersHandler.mk (failingUsersClient notFoundStatus)).PostUsers quotePlain anyTarget {}
        plainRequest).isDecodeFailure 415
        (GoError.errorString "content-type is not application/json")
    ∧ ((linksHandler.mk (failingLinksClient notFoundStatus)).PutLinksId quotePlain anyTarget {}
        plainRequest "7").isDecodeFailure 415
        (GoError.errorString "content-type is not application/json") :=
  ⟨((C6_decode_failure quotePlain anyTarget anyTarget ⟨failingUsersClient notFoundStatus⟩
      ⟨failingLinksClient notFoundStatus⟩ plainRequest "7"
      (GoError.errorString "content-type is not application/json")).1 (by decide)).1,
   ((C6_decode_failure quotePlain anyTarget anyTarget ⟨failingUsersClient notFoundStatus⟩
      ⟨failingLinksClient notFoundStatus⟩ plainRequest "7"
      (GoError.errorString "content-type is not application/json")).2 (by decide)).2⟩

/-- C7: for an RPC error with status code `c`, `handleGRPCError` writes the status
`ConvertGRPCCodeToHTTP c` and the envelope with code `ConvertGRPCToErrorCode c` and no
message, whatever the message of the error; every handler whose RPC call fails answers
with exactly this response; a not-found error from `GetUser` gives 404 and the envelope
with code `not_found` and a null message. -/
theorem C7_rpc_failure (st : Status) (quote : String → String) (tu : Target apiv1.UserCreate)
    (tl : Target apiv1.LinkCreate) (hu : usersHandler) (hl : linksHandler) (r : Request)
    (id : String) :
    (handleGRPCError {} st).isRpcFailure st.Code
    ∧ (∀ msg, handleGRPCError {} { st with Message := msg } = handleGRPCError {} st)
    ∧ (hu.client.ListUsers = .error st → (hu.GetUsers {}).w = handleGRPCError {} st)
    ∧ (hu.client.DeleteUser { Id := id } = .error st →
        (hu.DeleteUsersId {} id).w = handleGRPCError {} st)
    ∧ (hu.client.GetUser { Id := id } = .error st →
        (hu.GetUsersId {} id).w = handleGRPCError {} st)
    ∧ ((Unmarshal quote tu r {}).err = none →
        hu.client.CreateUser
            { Id := (Unmarshal quote tu r {}).data.Id,
              Username := (Unmarshal quote tu r {}).data.Username,
              Password := (Unmarshal quote tu r {}).data.Password } = .error st →
        (hu.PostUsers quote tu {} r).w = handleGRPCError {} st)
    ∧ ((Unmarshal quote tu r {}).err = none →
        hu.client.UpdateUser
            { Id := (Unmarshal quote tu r {}).data.Id,
              Username := (Unmarshal quote tu r {}).data.Username,
              Password := (Unmarshal quote tu r {}).data.Password } = .error st →
        (hu.PutUsersId quote tu {} r id).w = handleGRPCError {} st)
    ∧ (hl.client.ListLinks = .error st → (hl.GetLinks {}).w = handleGRPCError {} st)
    ∧ (hl.client.DeleteLink { Id := id } = .error st →
        (hl.DeleteLinksId {} id).w = handleGRPCError {} st)
    ∧ (hl.client.GetLink { Id := id } = .error st →
        (hl.GetLinksId {} id).w = handleGRPCError {} st)
    ∧ (hl.client.GetLinkByUserID { UserId := id } = .error st →
        (hl.GetLinksUserUserID {} id).w = handleGRPCError {} st)
    ∧ ((Unmarshal quote tl r {}).err = none →
        hl.client.CreateLink
            { Id := (Unmarshal quote tl r {}).data.Id,
              Title := (Unmarshal quote tl r {}).data.Title,
              Url := (Unmarshal quote tl r {}).data.Url,
              Images := (Unmarshal quote tl r {}).data.Images,
              Tags := (Unmarshal quote tl r {}).data.Tags,
              UserId := (Unmarshal quote tl r {}).data.UserId } = .error st →
        (hl.PostLinks quote tl {} r).w = handleGRPCError {} st)
    ∧ ((Unmarshal quote tl r {}).err = none →
        hl.client.UpdateLink
            { Id := (Unmarshal quote tl r {}).data.Id,
              Title := (Unmarshal quote tl r {}).data.Title,
              Url := (Unmarshal quote tl r {}).data.Url,
              Images := (Unmarshal quote tl r {}).data.Images,
              Tags := (Unmarshal quote tl r {}).data.Tags,
              UserId := (Unmarshal quote tl r {}).data.UserId } = .error st →
        (hl.PutLinksId quote tl {} r id).w = handleGRPCError {} st)
    ∧ (st.Code = codes.NotFound → hu.client.GetUser { Id := id } = .error st →
        (hu.GetUsersId {} id).w.status = some 404
        ∧ (hu.GetUsersId {} id).w.body
            = [.Error { Code := apiv1.ErrorCode.NotFound, Message := none }]
        ∧ apiv1.ErrorCode.NotFound.wire = "not_found") := by
  refine ⟨?_, ?_, ?_, ?_, ?_, ?_, ?_, ?_, ?_, ?_, ?_, ?_, ?_, ?_⟩
  · simp [handleGRPCError_new, ResponseWriter.isRpcFailure]
  · intro msg; simp [handleGRPCError_new]
  · intro h; simp [usersHandler.GetUsers, h]
  · intro h; simp [usersHandler.DeleteUsersId, h]
  · intro h; simp [usersHandler.GetUsersId, h]
  · intro h1 h2; simp [usersHandler.PostUsers, h1, h2]
  · intro h1 h2; simp [usersHandler.PutUsersId, h1, h2]
  · intro h; simp [linksHandler.GetLinks, h]
  · intro h; simp [linksHandler.DeleteLinksId, h]
  · intro h; simp [linksHandler.GetLinksId, h]
  · intro h; simp [linksHandler.GetLinksUserUserID, h]
  · intro h1 h2; simp [linksHandler.PostLinks, h1, h2]
  · intro h1 h2; simp [linksHandler.PutLinksId, h1, h2]
  · intro hc h
    simp only [usersHandler.GetUsersId, h, handleGRPCError_new, hc]
    decide

/-- A not-found error from `GetUser`: `GetUsersId` answers 404 with code `not_found` and
no message. -/
theorem C7_rpc_failure_witness :
    ((usersHandler.mk (failingUsersClient notFoundStatus)).GetUsersId {} "42").w.status
        = some 404
      ∧ ((usersHandler.mk (failingUsersClient notFoundStatus)).GetUsersId {} "42").w.body
        = [.Error { Code := apiv1.ErrorCode.NotFound, Message := none }]
      ∧ apiv1.ErrorCode.NotFound.wire = "not_found" :=
  (C7_rpc_failure notFoundStatus quotePlain anyTarget anyTarget ⟨failingUsersClient notFoundStatus⟩
    ⟨failingLinksClient notFoundStatus⟩ plainRequest "42").2.2.2.2.2.2.2.2.2.2.2.2.2 rfl rfl

/-! ## RPC services: comparisons with a new error value -/

/-- A pointer that `errors.New` has just made is not found in an error that was built
before. -/
theorem errors_Is_new (heap : Nat) (text : String) (err : RepoError)
    (h : err.allocatedBelow heap = true) : errors.Is err (errors.New heap text) = false := by
  induction err with
  | errorString e =>
    simp only [RepoError.allocatedBelow, decide_eq_true_eq] at h
    simp only [errors.Is, errors.New, beq_eq_false_iff_ne, ne_eq]
    omega
  | wrapError msg inner ih =>
    simp only [RepoError.allocatedBelow] at h
    simpa [errors.Is] using ih h
  | otherError ty msg => rfl

/-- C10: the comparisons with `errors.New("conflict")` and `errors.New("not found")` never
match an error that the repository returned: with an id that parses, `CreateUser`,
`GetUser`, `CreateLink` and `GetLink` answer every repository error with the code
`Internal`, which the gateway turns into 500 and `internal_server_error`. -/
theorem C10_new_error_never_matches (lib : Lib) (heap : Nat) (err : RepoError)
    (hu : usergrpc.Handler) (hl : linkgrpc.Handler) (cu : pb.CreateUserRequest)
    (gu : pb.GetUserRequest) (cl : pb.CreateLinkRequest) (gl : pb.GetLinkRequest)
    (id : List Nat) (halloc : err.allocatedBelow heap = true) :
    errors.Is err (errors.New heap "conflict") = false
    ∧ errors.Is err (errors.New heap "not found") = false
    ∧ (lib.uuidParse cu.Id = .ok id →
        hu.usersRepository.Create { ID := id, Username := cu.Username, Password := cu.Password }
          = .error err →
        hu.CreateUser lib heap cu = .error (statusError codes.Internal err.Error))
    ∧ (lib.uuidParse gu.Id = .ok id → hu.usersRepository.FindByID id = .error err →
        hu.GetUser lib heap gu = .error (statusError codes.Internal err.Error))
    ∧ (lib.ObjectIDFromHex cl.Id = .ok id →
        hl.linksRepository.Create
            { ID := id, URL := cl.Url, Title := cl.Title, Tags := cl.Tags, Images := cl.Images,
              UserID := cl.UserId } = .error err →
        hl.CreateLink lib heap cl = .error (statusError codes.Internal err.Error))
    ∧ (lib.ObjectIDFromHex gl.Id = .ok id → hl.linksRepository.FindByID id = .error err →
        hl.GetLink lib heap gl = .error (statusError codes.Internal err.Error))
    ∧ (statusError codes.Internal err.Error).Code ≠ codes.AlreadyExists
    ∧ (statusError codes.Internal err.Error).Code ≠ codes.NotFound
    ∧ (handleGRPCError {} (statusError codes.Internal err.Error)).status = some 500
    ∧ (handleGRPCError {} (statusError codes.Internal err.Error)).body
        = [.Error { Code := apiv1.ErrorCode.InternalServerError, Message := none }] := by
  have h1 := errors_Is_new heap "conflict" err halloc
  have h2 := errors_Is_new heap "not found" err halloc
  refine ⟨h1, h2, ?_, ?_, ?_, ?_, ?_, ?_, ?_, ?_⟩
  · intro hp hr; simp [usergrpc.Handler.CreateUser, hp, hr, h1]
  · intro hp hr; simp [usergrpc.Handler.GetUser, hp, hr, h2]
  · intro hp hr; simp [linkgrpc.Handler.CreateLink, hp, hr, h1]
  · intro hp hr; simp [linkgrpc.Handler.GetLink, hp, hr, h2]
  · simp only [statusError]; decide
  · simp only [statusError]; decide
  · simp only [handleGRPCError_new, statusError]; decide
  · simp only [handleGRPCError_new, statusError]; decide

/-- A repository that fails with its own stored "conflict" error: `CreateUser` still
answers `Internal`. -/
theorem C10_new_error_never_matches_witness :
    storedConflict.allocatedBelow 10 = true
      ∧ (usergrpc.Handler.mk (failingUsersRepository storedConflict)).CreateUser sampleLib 10
          { Id := "u1", Username := "ann", Password := "pw" }
        = .error (statusError codes.Internal "conflict") :=
  ⟨by decide,
    (C10_new_error_never_matches sampleLib 10 storedConflict
      ⟨failingUsersRepository storedConflict⟩ ⟨failingLinksRepository storedConflict⟩
      { Id := "u1", Username := "ann", Password := "pw" } { Id := "u1" }
      { Id := "l1", Title := "", Url := "", Images := [], Tags := [], UserId := "" }
      { Id := "l1" } (ascii "u1") (by decide)).2.2.1 rfl rfl⟩

/-! ## Decode classifier: the size cap -/

theorem contentType_ok {r : Request} (h : ascii "application/json" <+: r.HeaderGetContentType) :
    ¬ (r.HeaderGetContentType.length < 16
        ∨ r.HeaderGetContentType.take 16 ≠ ascii "application/json") := by
  rw [contentType_test_iff]; exact not_not.mpr h

/-- White space keeps the scanner at the beginning of a value. -/
theorem scanBuf_blank (n : Nat) (s : json.scanner) (i : Nat)
    (hs : s.step = .stateBeginValue) :
    scanBuf s i (List.replicate n 32) = .exhausted { s with bytes := s.bytes + n } := by
  induction n generalizing s i with
  | zero => simp [scanBuf]
  | succ k ih =>
    have hrun : json.scanner.run { s with bytes := s.bytes + 1 } 32
        = ({ s with bytes := s.bytes + 1 }, .scanSkipSpace) := by
      simp [json.scanner.run, hs, json.stateBeginValue, json.isSpace]
    rw [List.replicate_succ, scanBuf]
    simp only [hrun]
    rw [ih _ _ (by simpa using hs)]
    simp [Nat.add_assoc, Nat.add_comm 1 k]

/-- C3, as stated, fails: a body of 70,000 bytes under a JSON content type whose first
byte is no beginning of a JSON value is answered with 400 and the position of the
syntax error, not with 413. -/
theorem C3_counterexample :
    ascii "application/json" <+: (jsonRequest oversizeGarbage).HeaderGetContentType
      ∧ MaxBodyBytes < (jsonRequest oversizeGarbage).Body.length
      ∧ (Unmarshal quotePlain anyTarget (jsonRequest oversizeGarbage) ()).status = 400
      ∧ (Unmarshal quotePlain anyTarget (jsonRequest oversizeGarbage) ()).err
          = some (GoError.errorString "malformed json at position 1") := by
  refine ⟨by decide, ?_, ?_, ?_⟩
  · show MaxBodyBytes < (List.replicate 70000 120).length
    rw [List.length_replicate]; decide
  · decide
  · decide

/-- C3, amended: for a request with a JSON content type and a body longer than
`MaxBodyBytes`, when the scan of the first `MaxBodyBytes` bytes meets neither a syntax
error nor the end of the first value, `Unmarshal` answers 413 with the body-too-large
error of the reader as its error; when the scan meets a syntax error within those
bytes, the answer is 400 with the position of that error. -/
theorem C3_cap_exceeded {α : Type} (quote : String → String) (t : Target α) (r : Request)
    (data : α) (hct : ascii "application/json" <+: r.HeaderGetContentType)
    (hlen : MaxBodyBytes < r.Body.length) :
    (∀ s, scanBuf newScanner.reset 0 (r.Body.take MaxBodyBytes) = .exhausted s →
        (Unmarshal quote t r data).status = 413
        ∧ (Unmarshal quote t r data).err = some (GoError.MaxBytesError MaxBodyBytes)
        ∧ (GoError.MaxBytesError MaxBodyBytes).Error = "http: request body too large")
    ∧ (∀ e, scanBuf newScanner.reset 0 (r.Body.take MaxBodyBytes) = .failed e →
        (Unmarshal quote t r data).answers 400
          ("malformed json at position " ++ toString e.Offset)) := by
  have hrd : MaxBytesReader r.Body MaxBodyBytes
      = (r.Body.take MaxBodyBytes, GoError.MaxBytesError MaxBodyBytes) := by
    simp [MaxBytesReader, Nat.not_le.mpr hlen]
  constructor
  · intro s hs
    have hread : readValue (r.Body.take MaxBodyBytes) (GoError.MaxBytesError MaxBodyBytes)
        = .error (GoError.MaxBytesError MaxBodyBytes) := by
      simp [readValue, hs]
    have hbody : unmarshalBody quote t r.Body data
        = (413, some (GoError.MaxBytesError MaxBodyBytes), data) := by
      simp [unmarshalBody, hrd, Decode, hread, GoError.asSyntaxError,
        GoError.isErrUnexpectedEOF, GoError.asUnmarshalTypeError, GoError.isEOF, GoError.Error,
        http.StatusRequestEntityTooLarge]
      decide
    simp [Unmarshal, contentType_ok hct, hbody, GoError.Error]
  · intro e he
    have hread : readValue (r.Body.take MaxBodyBytes) (GoError.MaxBytesError MaxBodyBytes)
        = .error (GoError.SyntaxError e) := by
      simp [readValue, he]
    have hbody : unmarshalBody quote t r.Body data
        = (400, some (Errorf ("malformed json at position " ++ toString e.Offset)), data) := by
      simp [unmarshalBody, hrd, Decode, hread, GoError.asSyntaxError, http.StatusBadRequest]
    simp [Unmarshal, contentType_ok hct, hbody, Unmarshaled.answers]

/-- A body of 70,000 spaces: no value begins within the cap, the answer is 413. -/
theorem C3_cap_exceeded_witness :
    (Unmarshal quotePlain anyTarget (jsonRequest oversizeBlank) ()).status = 413
      ∧ (Unmarshal quotePlain anyTarget (jsonRequest oversizeBlank) ()).err
          = some (GoError.MaxBytesError MaxBodyBytes)
      ∧ (GoError.MaxBytesError MaxBodyBytes).Error = "http: request body too large" :=
  (C3_cap_exceeded quotePlain anyTarget (jsonRequest oversizeBlank) () (by decide)
    (by show MaxBodyBytes < (List.replicate 70000 32).length
        rw [List.length_replicate]; decide)).1 _
    (by
      show scanBuf newScanner.reset 0 ((List.replicate 70000 32).take MaxBodyBytes) = _
      rw [List.take_replicate]
      exact scanBuf_blank _ _ _ rfl)

/-! ## Decode classifier: parse failures -/

theorem hasLeading_append (p s : String) : hasLeading (p ++ s) p = true := by
  unfold hasLeading
  rw [List.isPrefixOf_iff_prefix]
  show p.data <+: (p ++ s).data
  rw [String.data_append]
  exact List.prefix_append _ _

theorem hasLeading_unknown_field (key : String) :
    hasLeading ("json: unknown field " ++ key) "json: unknown field" = true := by
  have h : ("json: unknown field " : String) = "json: unknown field" ++ " " := by decide
  rw [h, String.append_assoc]
  exact hasLeading_append _ _

theorem trimLeading_append (p s : String) : trimLeading (p ++ s) p = s := by
  unfold trimLeading
  rw [if_pos (hasLeading_append p s)]
  show String.mk ((p ++ s).data.drop p.data.length) = s
  rw [String.data_append, List.drop_left]

/-- Once the content-type test has passed, status and error are those of the part of
`Unmarshal` that reads the body. -/
theorem Unmarshal_of_body {α : Type} (quote : String → String) (t : Target α) (r : Request)
    (data : α) (hct : ascii "application/json" <+: r.HeaderGetContentType) :
    (Unmarshal quote t r data).status = (unmarshalBody quote t r.Body data).1
      ∧ (Unmarshal quote t r data).err = (unmarshalBody quote t r.Body data).2.1 := by
  simp [Unmarshal, contentType_ok hct]

/-- The error of `Decode` when the scan loop stops at a syntax error. -/
theorem decodeBody_failed {α : Type} (t : Target α) (r : Request) (data : α)
    (e : json.SyntaxError)
    (h : scanBuf newScanner.reset 0 (r.Body.take MaxBodyBytes) = .failed e) :
    (decodeBody r t data).err = some (.SyntaxError e) := by
  simp [decodeBody, Decode, MaxBytesReader, readValue, h]

/-- The error of `Decode` on a body within the cap that ends before its first value
does: `io.EOF` when the body is white space only, `io.ErrUnexpectedEOF` otherwise. -/
theorem decodeBody_exhausted {α : Type} (t : Target α) (r : Request) (data : α)
    (s : json.scanner) (hlen : r.Body.length ≤ MaxBodyBytes)
    (h : scanBuf newScanner.reset 0 r.Body = .exhausted s)
    (hend : (s.run 32).2 ≠ .scanEnd) :
    (decodeBody r t data).err
      = some (if nonSpace r.Body then GoError.ErrUnexpectedEOF else GoError.EOF) := by
  have htake : r.Body.take MaxBodyBytes = r.Body := List.take_of_length_le hlen
  have hread : readValue r.Body GoError.EOF
      = .error (if nonSpace r.Body then GoError.ErrUnexpectedEOF else GoError.EOF) := by
    simp only [readValue, h, hend, if_true, if_false]
    cases nonSpace r.Body <;> rfl
  simp only [decodeBody, Decode, MaxBytesReader, hlen, htake, if_true, hread]

/-- White space only keeps the scanner at the beginning of a value. -/
theorem scanBuf_space (body : List Nat) (s : json.scanner) (i : Nat)
    (hs : s.step = .stateBeginValue) (hb : nonSpace body = false) :
    scanBuf s i body = .exhausted { s with bytes := s.bytes + body.length } := by
  induction body generalizing s i with
  | nil => simp [scanBuf]
  | cons c rest ih =>
    have hc : json.isSpace c = true ∧ nonSpace rest = false := by
      simpa [nonSpace, List.any_cons] using hb
    have hrun : json.scanner.run { s with bytes := s.bytes + 1 } c
        = ({ s with bytes := s.bytes + 1 }, .scanSkipSpace) := by
      simp [json.scanner.run, hs, json.stateBeginValue, hc.1]
    rw [scanBuf]
    simp only [hrun]
    rw [ih _ _ (by simpa using hs) hc.2]
    simp [Nat.add_assoc, Nat.add_comm 1 rest.length]

/-- The error of `Decode` is the error of `readValue` when there is one. -/
theorem decodeBody_readValue_error {α : Type} (t : Target α) (r : Request) (data : α)
    (e : GoError) (h : readValue (bodyBuf r) (bodyEnd r) = .error e) :
    (decodeBody r t data).err = some e := by
  have h2 : readValue (MaxBytesReader r.Body MaxBodyBytes).1
      (MaxBytesReader r.Body MaxBodyBytes).2 = .error e := h
  simp only [decodeBody, Decode, h2]

/-- The error of `Decode` is the error of the unmarshal step on the first value, when
`readValue` has found the end of that value. -/
theorem decodeBody_readValue_ok {α : Type} (t : Target α) (r : Request) (data : α)
    (n : Nat) (h : readValue (bodyBuf r) (bodyEnd r) = .ok n) :
    (decodeBody r t data).err = (t.unmarshal ((bodyBuf r).take n) data).2 := by
  have h2 : readValue (MaxBytesReader r.Body MaxBodyBytes).1
      (MaxBytesReader r.Body MaxBodyBytes).2 = .ok n := h
  simp only [decodeBody, Decode, h2, bodyBuf]

/-- The switch of `Unmarshal` on the error of `Decode`, case by case in the order of the
source, each case under the tests that lead to it. -/
theorem classification_of_error {α : Type} (quote : String → String) (t : Target α)
    (r : Request) (data : α) (err : GoError)
    (hct : ascii "application/json" <+: r.HeaderGetContentType)
    (hdec : (decodeBody r t data).err = some err) :
    ((Unmarshal quote t r data).err ≠ none ∧ (Unmarshal quote t r data).status ≠ 200
      ∧ ((Unmarshal quote t r data).status = 400 ∨ (Unmarshal quote t r data).status = 413
          ∨ (Unmarshal quote t r data).status = 500))
    ∧ (∀ e, err.asSyntaxError = some e →
        (Unmarshal quote t r data).answers 400
          ("malformed json at position " ++ toString e.Offset))
    ∧ (err.asSyntaxError = none → err.isErrUnexpectedEOF = true →
        (Unmarshal quote t r data).answers 400 "malformed json")
    ∧ (err.asSyntaxError = none → err.isErrUnexpectedEOF = false →
        ∀ e, err.asUnmarshalTypeError = some e →
        (Unmarshal quote t r data).answers 400
          ("invalid value " ++ quote e.Field ++ " at position " ++ toString e.Offset))
    ∧ (err.asSyntaxError = none → err.isErrUnexpectedEOF = false →
        err.asUnmarshalTypeError = none →
        hasLeading err.Error "json: unknown field" = true →
        (Unmarshal quote t r data).answers 400
          ("unknown field " ++ trimLeading err.Error "json: unknown field "))
    ∧ (err.asSyntaxError = none → err.isErrUnexpectedEOF = false →
        err.asUnmarshalTypeError = none →
        hasLeading err.Error "json: unknown field" = false → err.isEOF = true →
        (Unmarshal quote t r data).answers 400 "body must not be empty")
    ∧ (err.asSyntaxError = none → err.isErrUnexpectedEOF = false →
        err.asUnmarshalTypeError = none →
        hasLeading err.Error "json: unknown field" = false → err.isEOF = false →
        err.Error ≠ "http: request body too large" →
        (Unmarshal quote t r data).status = 500
        ∧ (Unmarshal quote t r data).err
            = some (.wrapError ("failed to decode json: " ++ err.Error) err)) := by
  obtain ⟨hs, he⟩ := Unmarshal_of_body quote t r data hct
  have hd : (Decode t (MaxBytesReader r.Body MaxBodyBytes).1
      (MaxBytesReader r.Body MaxBodyBytes).2 data).err = some err := hdec
  simp only [Unmarshaled.answers, hs, he]
  refine ⟨?_, ?_, ?_, ?_, ?_, ?_, ?_⟩
  · unfold unmarshalBody
    simp only [hd, http.StatusBadRequest, http.StatusRequestEntityTooLarge,
      http.StatusInternalServerError]
    repeat' split
    all_goals simp
  · intro e h
    simp [unmarshalBody, hd, h, http.StatusBadRequest]
  · intro h1 h2
    simp [unmarshalBody, hd, h1, h2, http.StatusBadRequest]
  · intro h1 h2 e h3
    simp [unmarshalBody, hd, h1, h2, h3, http.StatusBadRequest]
  · intro h1 h2 h3 h4
    simp [unmarshalBody, hd, h1, h2, h3, h4, http.StatusBadRequest]
  · intro h1 h2 h3 h4 h5
    simp [unmarshalBody, hd, h1, h2, h3, h4, h5, http.StatusBadRequest]
  · intro h1 h2 h3 h4 h5 h6
    simp [unmarshalBody, hd, h1, h2, h3, h4, h5, h6, http.StatusInternalServerError]

/-- The answer of `Unmarshal` to each kind of error value that `Decode` returns. -/
theorem answer_of_error {α : Type} (quote : String → String) (t : Target α)
    (r : Request) (data : α) (err : GoError)
    (hct : ascii "application/json" <+: r.HeaderGetContentType)
    (hdec : (decodeBody r t data).err = some err) :
    (∀ e, err = .SyntaxError e →
        (Unmarshal quote t r data).answers 400
          ("malformed json at position " ++ toString e.Offset))
    ∧ (err = .EOF → (Unmarshal quote t r data).answers 400 "body must not be empty")
    ∧ (err = .ErrUnexpectedEOF → (Unmarshal quote t r data).answers 400 "malformed json")
    ∧ (∀ e, err = .UnmarshalTypeError e →
        (Unmarshal quote t r data).answers 400
          ("invalid value " ++ quote e.Field ++ " at position " ++ toString e.Offset))
    ∧ (∀ key, err = .errorString ("json: unknown field " ++ key) →
        (Unmarshal quote t r data).answers 400 ("unknown field " ++ key))
    ∧ (∀ s, err = .errorString s → ¬ ("json: unknown field".toList <+: s.toList) →
        s ≠ "http: request body too large" →
        (Unmarshal quote t r data).status = 500
        ∧ (Unmarshal quote t r data).err
            = some (.wrapError ("failed to decode json: " ++ s) (.errorString s))) := by
  obtain ⟨_, h1, h2, h3, h4, h5, h6⟩ := classification_of_error quote t r data err hct hdec
  refine ⟨?_, ?_, ?_, ?_, ?_, ?_⟩
  · intro e he; subst he; exact h1 e rfl
  · intro he; subst he; exact h5 rfl rfl rfl (by decide) rfl
  · intro he; subst he; exact h2 rfl rfl
  · intro e he; subst he; exact h3 rfl rfl e rfl
  · intro key he; subst he
    have := h4 rfl rfl rfl (hasLeading_unknown_field key)
    simpa [GoError.Error, trimLeading_append] using this
  · intro s he hp hs; subst he
    have hl : hasLeading s "json: unknown field" = false := by
      unfold hasLeading
      rw [Bool.eq_false_iff, ne_eq, List.isPrefixOf_iff_prefix]
      exact hp
    exact h6 rfl rfl rfl hl rfl hs

/-- C4: under a JSON content type every decode failure is answered with an error and
with 400, 413 or 500, never with 200, and the answer follows the kind of the failure.
The error of `Decode` is the error of reading the first value or else the error of the
unmarshal step. A syntax error gives 400 "malformed json at position" and its offset;
an empty or blank body (`io.EOF`) gives 400 "body must not be empty"; a body that ends
inside its first value (`io.ErrUnexpectedEOF`) gives 400 "malformed json"; an
`UnmarshalTypeError` of the unmarshal step gives 400 with the quoted field name and the
offset; the unknown-field error of `encoding/json` gives 400 "unknown field" and the
name; any other plain error of the unmarshal step gives 500 and wraps the error. Each
kind is stated on the body or on the result of the unmarshal step, and on the error
value. -/
theorem C4_classification {α : Type} (quote : String → String) (t : Target α) (r : Request)
    (data : α) (hct : ascii "application/json" <+: r.HeaderGetContentType) :
    (∀ err, (decodeBody r t data).err = some err →
        (Unmarshal quote t r data).err ≠ none ∧ (Unmarshal quote t r data).status ≠ 200
        ∧ ((Unmarshal quote t r data).status = 400 ∨ (Unmarshal quote t r data).status = 413
            ∨ (Unmarshal quote t r data).status = 500))
    ∧ (∀ e, readValue (bodyBuf r) (bodyEnd r) = .error e → (decodeBody r t data).err = some e)
    ∧ (∀ n, readValue (bodyBuf r) (bodyEnd r) = .ok n →
        (decodeBody r t data).err = (t.unmarshal ((bodyBuf r).take n) data).2)
    ∧ (∀ e, scanBuf newScanner.reset 0 (r.Body.take MaxBodyBytes) = .failed e →
        (Unmarshal quote t r data).answers 400
          ("malformed json at position " ++ toString e.Offset))
    ∧ (r.Body = [] → (Unmarshal quote t r data).answers 400 "body must not be empty")
    ∧ (r.Body.length ≤ MaxBodyBytes → nonSpace r.Body = false →
        (Unmarshal quote t r data).answers 400 "body must not be empty")
    ∧ (∀ s, r.Body.length ≤ MaxBodyBytes → scanBuf newScanner.reset 0 r.Body = .exhausted s →
        (s.run 32).2 ≠ .scanEnd → nonSpace r.Body = true →
        (Unmarshal quote t r data).answers 400 "malformed json")
    ∧ (∀ n e, readValue (bodyBuf r) (bodyEnd r) = .ok n →
        (t.unmarshal ((bodyBuf r).take n) data).2 = some (.UnmarshalTypeError e) →
        (Unmarshal quote t r data).answers 400
          ("invalid value " ++ quote e.Field ++ " at position " ++ toString e.Offset))
    ∧ (∀ n key, readValue (bodyBuf r) (bodyEnd r) = .ok n →
        (t.unmarshal ((bodyBuf r).take n) data).2
          = some (.errorString ("json: unknown field " ++ key)) →
        (Unmarshal quote t r data).answers 400 ("unknown field " ++ key))
    ∧ (∀ n s, readValue (bodyBuf r) (bodyEnd r) = .ok n →
        (t.unmarshal ((bodyBuf r).take n) data).2 = some (.errorString s) →
        ¬ ("json: unknown field".toList <+: s.toList) → s ≠ "http: request body too large" →
        (Unmarshal quote t r data).status = 500
        ∧ (Unmarshal quote t r data).err
            = some (.wrapError ("failed to decode json: " ++ s) (.errorString s)))
    ∧ (∀ err, (decodeBody r t data).err = some err →
        (∀ e, err = .SyntaxError e →
          (Unmarshal quote t r data).answers 400
            ("malformed json at position " ++ toString e.Offset))
        ∧ (err = .EOF → (Unmarshal quote t r data).answers 400 "body must not be empty")
        ∧ (err = .ErrUnexpectedEOF → (Unmarshal quote t r data).answers 400 "malformed json")
        ∧ (∀ e, err = .UnmarshalTypeError e →
          (Unmarshal quote t r data).answers 400
            ("invalid value " ++ quote e.Field ++ " at position " ++ toString e.Offset))
        ∧ (∀ key, err = .errorString ("json: unknown field " ++ key) →
          (Unmarshal quote t r data).answers 400 ("unknown field " ++ key))
        ∧ (∀ s, err = .errorString s → ¬ ("json: unknown field".toList <+: s.toList) →
          s ≠ "http: request body too large" →
          (Unmarshal quote t r data).status = 500
          ∧ (Unmarshal quote t r data).err
              = some (.wrapError ("failed to decode json: " ++ s) (.errorString s)))) := by
  have hblank : r.Body.length ≤ MaxBodyBytes → nonSpace r.Body = false →
      (Unmarshal quote t r data).answers 400 "body must not be empty" := by
    intro hlen hb
    have hscan := scanBuf_space r.Body newScanner.reset 0 rfl hb
    have hdec := decodeBody_exhausted t r data _ hlen hscan
      (by simp [json.scanner.run, json.scanner.reset, newScanner, json.stateBeginValue,
        json.isSpace])
    rw [hb] at hdec
    exact (answer_of_error quote t r data _ hct hdec).2.1 rfl
  refine ⟨?_, ?_, ?_, ?_, ?_, hblank, ?_, ?_, ?_, ?_, ?_⟩
  · intro err hdec
    exact (classification_of_error quote t r data err hct hdec).1
  · intro e h
    exact decodeBody_readValue_error t r data e h
  · intro n h
    exact decodeBody_readValue_ok t r data n h
  · intro e h
    exact (answer_of_error quote t r data _ hct (decodeBody_failed t r data e h)).1 e rfl
  · intro h
    exact hblank (by rw [h]; decide) (by rw [h]; rfl)
  · intro s hlen h hend hns
    have hdec := decodeBody_exhausted t r data s hlen h hend
    rw [hns] at hdec
    exact (answer_of_error quote t r data _ hct hdec).2.2.1 rfl
  · intro n e h hu
    have hdec := (decodeBody_readValue_ok t r data n h).trans hu
    exact (answer_of_error quote t r data _ hct hdec).2.2.2.1 e rfl
  · intro n key h hu
    have hdec := (decodeBody_readValue_ok t r data n h).trans hu
    exact (answer_of_error quote t r data _ hct hdec).2.2.2.2.1 key rfl
  · intro n s h hu hp hs
    have hdec := (decodeBody_readValue_ok t r data n h).trans hu
    exact (answer_of_error quote t r data _ hct hdec).2.2.2.2.2 s rfl hp hs
  · intro err hdec
    exact answer_of_error quote t r data err hct hdec

/-- Six bodies under a JSON content type, one of each kind: the empty body; `{"id":}`
with a syntax error at byte 7; `{"id":` that ends inside its value; `{"id":1}` with a
number for a string member; `{"id":"1","unknownField":true}`; and a value that the
target refuses with an error of its own. -/
theorem C4_classification_witness :
    (Unmarshal quotePlain anyTarget (jsonRequest []) ()).answers 400 "body must not be empty"
    ∧ (Unmarshal quotePlain anyTarget (jsonRequest badSyntaxBody) ()).answers 400
        ("malformed json at position " ++ toString 7)
    ∧ (Unmarshal quotePlain anyTarget (jsonRequest truncatedBody) ()).answers 400
        "malformed json"
    ∧ (Unmarshal quotePlain strictUserTarget (jsonRequest typeErrorBody) {}).answers 400
        ("invalid value " ++ quotePlain "id" ++ " at position " ++ toString (7 : Int))
    ∧ (Unmarshal quotePlain strictUserTarget (jsonRequest unknownFieldBody) {}).answers 400
        ("unknown field " ++ quotePlain "unknownField")
    ∧ ((Unmarshal quotePlain (refusingTarget "id is not stored") (jsonRequest oneObjectBody)
          ()).status = 500
      ∧ (Unmarshal quotePlain (refusingTarget "id is not stored") (jsonRequest oneObjectBody)
          ()).err
        = some (.wrapError ("failed to decode json: " ++ "id is not stored")
            (.errorString "id is not stored"))) :=
  ⟨(C4_classification quotePlain anyTarget (jsonRequest []) () (by decide)).2.2.2.2.1 rfl,
    (C4_classification quotePlain anyTarget (jsonRequest badSyntaxBody) ()
      (by decide)).2.2.2.1 _ rfl,
    (C4_classification quotePlain anyTarget (jsonRequest truncatedBody) ()
      (by decide)).2.2.2.2.2.2.1 _ (by decide) rfl (by decide) (by decide),
    (C4_classification quotePlain strictUserTarget (jsonRequest typeErrorBody) {}
      (by decide)).2.2.2.2.2.2.2.1 8 idTypeError rfl rfl,
    (C4_classification quotePlain strictUserTarget (jsonRequest unknownFieldBody) {}
      (by decide)).2.2.2.2.2.2.2.2.1 30 (quotePlain "unknownField") rfl rfl,
    (C4_classification quotePlain (refusingTarget "id is not stored")
      (jsonRequest oneObjectBody) () (by decide)).2.2.2.2.2.2.2.2.2.1 10 "id is not stored"
      rfl rfl (by decide) (by decide)⟩

/-- What follows the first value is tested with `Decoder.More`, which is false on a
closing brace: for every target that takes `{"id":"1"}` without an error, the body
`{"id":"1"}}` is answered with 200 and no error. -/
theorem trailing_brace_any_target {α : Type} (quote : String → String) (t : Target α)
    (data : α) (h : (t.unmarshal oneObjectBody data).2 = none) :
    (Unmarshal quote t (jsonRequest trailingBraceBody) data).status = 200
      ∧ (Unmarshal quote t (jsonRequest trailingBraceBody) data).err = none
      ∧ (Unmarshal quote t (jsonRequest trailingBraceBody) data).data
          = (t.unmarshal oneObjectBody data).1 := by
  have hrd : MaxBytesReader trailingBraceBody MaxBodyBytes = (trailingBraceBody, GoError.EOF) := by
    decide
  have hread : readValue trailingBraceBody GoError.EOF = .ok 10 := rfl
  have htake : trailingBraceBody.take 10 = oneObjectBody := by decide
  have hmore : More (trailingBraceBody.drop 10) = false := by decide
  have hct : ¬ ((jsonRequest trailingBraceBody).HeaderGetContentType.length < 16
      ∨ (jsonRequest trailingBraceBody).HeaderGetContentType.take 16
          ≠ ascii "application/json") := by decide
  have hb : (jsonRequest trailingBraceBody).Body = trailingBraceBody := rfl
  simp [Unmarshal, hct, hb, unmarshalBody, hrd, Decode, hread, htake, hmore, h,
    http.StatusOK]

/-- C5 at its failing inputs: the bodies `{"id":"1"}}` and `{"id":"1"}]` under a JSON
content type are answered with 200 and no error, although a non-space byte follows the
object; the body `{"id":"1"}{"id":"2"}` is answered with 400 "body must contain only
one JSON object". -/
theorem C5_trailing_brace_accepted :
    (Unmarshal quotePlain anyTarget (jsonRequest trailingBraceBody) ()).status = 200
      ∧ (Unmarshal quotePlain anyTarget (jsonRequest trailingBraceBody) ()).err = none
      ∧ (Unmarshal quotePlain anyTarget (jsonRequest trailingBracketBody) ()).status = 200
      ∧ (Unmarshal quotePlain anyTarget (jsonRequest trailingBracketBody) ()).err = none
      ∧ (Unmarshal quotePlain anyTarget (jsonRequest twoObjectsBody) ()).status = 400
      ∧ (Unmarshal quotePlain anyTarget (jsonRequest twoObjectsBody) ()).err
          = some (GoError.errorString "body must contain only one JSON object") := by
  decide


/-! ## Handlers: the path id of the update handlers -/

/-- C11: in `PutUsersId` and `PutLinksId` the path parameter has no influence: for every
response writer, request and two path ids the outcome (the response written and the
calls made) is the same; when `Unmarshal` succeeds, the one call made is the update
call whose request carries the `Id` and the other members of the decoded body; when it
fails, no call is made. -/
theorem C11_path_id_ignored (quote : String → String) (tu : Target apiv1.UserCreate)
    (tl : Target apiv1.LinkCreate) (hu : usersHandler) (hl : linksHandler)
    (w : ResponseWriter) (r : Request) (id1 id2 : String) :
    hu.PutUsersId quote tu w r id1 = hu.PutUsersId quote tu w r id2
    ∧ hl.PutLinksId quote tl w r id1 = hl.PutLinksId quote tl w r id2
    ∧ ((Unmarshal quote tu r {}).err = none →
        (hu.PutUsersId quote tu w r id1).calls
          = [.UpdateUser { Id := (Unmarshal quote tu r {}).data.Id,
                           Username := (Unmarshal quote tu r {}).data.Username,
                           Password := (Unmarshal quote tu r {}).data.Password }])
    ∧ ((Unmarshal quote tl r {}).err = none →
        (hl.PutLinksId quote tl w r id1).calls
          = [.UpdateLink { Id := (Unmarshal quote tl r {}).data.Id,
                           Title := (Unmarshal quote tl r {}).data.Title,
                           Url := (Unmarshal quote tl r {}).data.Url,
                           Images := (Unmarshal quote tl r {}).data.Images,
                           Tags := (Unmarshal quote tl r {}).data.Tags,
                           UserId := (Unmarshal quote tl r {}).data.UserId }])
    ∧ ((Unmarshal quote tu r {}).err ≠ none → (hu.PutUsersId quote tu w r id1).calls = [])
    ∧ ((Unmarshal quote tl r {}).err ≠ none → (hl.PutLinksId quote tl w r id1).calls = []) := by
  refine ⟨rfl, rfl, ?_, ?_, ?_, ?_⟩
  · intro h
    simp only [usersHandler.PutUsersId, h]
    cases hu.client.UpdateUser _ <;> rfl
  · intro h
    simp only [linksHandler.PutLinksId, h]
    cases hl.client.UpdateLink _ <;> rfl
  · intro h
    cases he : (Unmarshal quote tu r {}).err with
    | none => exact absurd he h
    | some e => simp only [usersHandler.PutUsersId, he]
  · intro h
    cases he : (Unmarshal quote tl r {}).err with
    | none => exact absurd he h
    | some e => simp only [linksHandler.PutLinksId, he]

/-- A `PUT` with the path id 7 and the body `{"id":"1"}`: the update request carries the
id 1 of the body, and the `text/plain` request makes no call. -/
theorem C11_path_id_ignored_witness :
    ((usersHandler.mk acceptingUsersClient).PutUsersId quotePlain sampleUserTarget {}
        (jsonRequest oneObjectBody) "7").calls
      = [.UpdateUser { Id := "1", Username := "", Password := "" }]
    ∧ ((linksHandler.mk (failingLinksClient notFoundStatus)).PutLinksId quotePlain
        sampleLinkTarget {} (jsonRequest oneObjectBody) "7").calls
      = [.UpdateLink { Id := "1", Title := "", Url := "", Images := [], Tags := [],
                       UserId := "" }]
    ∧ ((usersHandler.mk acceptingUsersClient).PutUsersId quotePlain sampleUserTarget {}
        plainRequest "7").calls = [] :=
  ⟨(C11_path_id_ignored quotePlain sampleUserTarget sampleLinkTarget ⟨acceptingUsersClient⟩
      ⟨failingLinksClient notFoundStatus⟩ {} (jsonRequest oneObjectBody) "7" "8").2.2.1
      (by decide),
    (C11_path_id_ignored quotePlain sampleUserTarget sampleLinkTarget ⟨acceptingUsersClient⟩
      ⟨failingLinksClient notFoundStatus⟩ {} (jsonRequest oneObjectBody) "7" "8").2.2.2.1
      (by decide),
    (C11_path_id_ignored quotePlain sampleUserTarget sampleLinkTarget ⟨acceptingUsersClient⟩
      ⟨failingLinksClient notFoundStatus⟩ {} plainRequest "7" "8").2.2.2.2.1 (by decide)⟩

end UManager
